import Mathlib

/-!
# Lichess dashboard gateway (`backend/index.js`)

A shallow embedding of the Express gateway: the values it reads from the
upstream JSON payloads, the retry helper `axiosRetry`, and the five route
handlers that call upstream; and of `getRatingColor` of the dashboard
(`Leaderboards.jsx`, `Profile.jsx`).

Conventions of the embedding.

* A JavaScript value is a `JVal`.  Numbers are modelled as integers (ratings,
  counts and status codes are integers).
* A thrown value is a `JError`; for an axios error it carries the fields the
  handlers read, `code` and `response`.
* `apiClient.get` is an oracle: for a url and the index of the attempt inside
  one call of `axiosRetry` it either returns a response or throws.
* `console.log` and `console.error` write nothing into the HTTP response and
  are not modelled, except where evaluating their argument can throw.
-/

namespace Lichess

/-! ## JavaScript values -/

/-- A JavaScript value as it comes out of a parsed JSON payload or is built by a handler. -/
inductive JVal where
  | undefined
  | null
  | bool (b : Bool)
  | num (n : Int)
  | str (s : String)
  | arr (items : List JVal)
  | obj (fields : List (String × JVal))
  deriving Inhabited

/-- A thrown error object: `error.code`, `error.response` and `error.message`. -/
structure JError where
  code : JVal
  response : JVal
  message : String

/-- A `TypeError` raised by the runtime: it has neither `code` nor `response`. -/
def typeError : JError := ⟨.undefined, .undefined, "TypeError"⟩

/-- An axios response; the handlers read only `response.data`. -/
structure Response where
  data : JVal

/-- The values `null` and `undefined`. -/
def nullish : JVal → Bool
  | .undefined => true
  | .null => true
  | _ => false

/-- JavaScript truthiness (`ToBoolean`). -/
def truthy : JVal → Bool
  | .undefined => false
  | .null => false
  | .bool b => b
  | .num n => n != 0
  | .str s => s != ""
  | .arr _ => true
  | .obj _ => true

/-- The expression `a || b`. -/
def jsOr (a b : JVal) : JVal := if truthy a then a else b

/-- Own field `k` of an object literal or parsed JSON object: the first field of the
list with that key (a parsed object lists each key once). -/
def lookupField (k : String) : List (String × JVal) → Option JVal
  | [] => none
  | (k', v) :: rest => if k' = k then some v else lookupField k rest

/-- Property read `v.k` on a value that is neither `null` nor `undefined`, for the
fixed property names of the handlers (`users`, `username`, `profile`, `bio`, ...):
an own field of an object, and `undefined` on anything else, since none of these
names is an index or a member of a built-in prototype. -/
def prop (v : JVal) (k : String) : JVal :=
  match v with
  | .obj fields => (lookupField k fields).getD .undefined
  | _ => .undefined

/-- Property read `v.k`: throws a `TypeError` when `v` is `null` or `undefined`. -/
def getProp (v : JVal) (k : String) : Except JError JVal :=
  if nullish v then .error typeError else .ok (prop v k)

/-- Optional chaining `v?.k`. -/
def optProp (v : JVal) (k : String) : JVal :=
  if nullish v then .undefined else prop v k

/-- The comparison `v === s` with a string literal `s`. -/
def strictEqStr (v : JVal) (s : String) : Bool :=
  match v with
  | .str t => t == s
  | _ => false

/-- The comparison `v === n` with a number literal `n`. -/
def strictEqNum (v : JVal) (n : Int) : Bool :=
  match v with
  | .num m => m == n
  | _ => false

/-- One step of `Array.prototype.join`: the text of the head, then a comma and
the text of the tail unless the head is the last element. -/
def joinStep (head : Except JError String) (last : Bool) (tail : Except JError String) :
    Except JError String :=
  match head, last, tail with
  | .error e, _, _ => .error e
  | .ok a, true, _ => .ok a
  | .ok _, false, .error e => .error e
  | .ok a, false, .ok b => .ok (a ++ "," ++ b)

mutual
/-- String conversion of a value inside a template literal (`ToString`).  An array
is joined with commas; a plain object prints as `[object Object]`, and throws a
`TypeError` when it has an own field `toString`, which in a JSON payload is never
callable.  A number prints in decimal, as JavaScript prints an integer of magnitude
below 10^21; the exponent form of larger numbers is outside the embedding. -/
def toStr : JVal → Except JError String
  | .undefined => .ok "undefined"
  | .null => .ok "null"
  | .bool true => .ok "true"
  | .bool false => .ok "false"
  | .num n => .ok (toString n)
  | .str s => .ok s
  | .arr items => joinItems items
  | .obj fields =>
    if (lookupField "toString" fields).isSome then .error typeError else .ok "[object Object]"
termination_by structural v => v
/-- Comma-joined text of the items of an array, `null` and `undefined` printing as empty. -/
def joinItems : List JVal → Except JError String
  | [] => .ok ""
  | x :: rest => joinStep (if nullish x then .ok "" else toStr x) rest.isEmpty (joinItems rest)
termination_by structural l => l
end

/-! ## The retry helper -/

/-- The oracle for `apiClient.get(url, options)`: the outcome of attempt number `i`
(counted from 0) of one call of `axiosRetry` on `url`. -/
abbrev ApiClient := String → Nat → Except JError Response

/-- What a call does upstream, in order. -/
inductive Event where
  | get (url : String)
  | sleep (ms : Nat)

/-- A result together with the upstream events that produced it. -/
structure Run (α : Type) where
  result : α
  events : List Event

/-- Number of `apiClient.get` calls in a list of events. -/
def attempts : List Event → Nat
  | [] => 0
  | .get _ :: rest => attempts rest + 1
  | .sleep _ :: rest => attempts rest

/-- The delays of the `setTimeout` waits in a list of events, in order. -/
def waits : List Event → List Nat
  | [] => []
  | .get _ :: rest => waits rest
  | .sleep ms :: rest => ms :: waits rest

/-- The loop of `axiosRetry` from index `i`, with `fuel` bounding the number of
iterations.  `ok none` is the value `undefined` the function returns when the loop
condition `i <= retries` fails. -/
def axiosRetryLoop (get : ApiClient) (url : String) (retries : Nat) :
    Nat → Nat → Run (Except JError (Option Response))
  | 0, _ => ⟨.ok none, []⟩
  | fuel + 1, i =>
    if i ≤ retries then
      match get url i with
      | .ok response => ⟨.ok (some response), [.get url]⟩
      | .error error =>
        if i = retries then ⟨.error error, [.get url]⟩
        else
          let rest := axiosRetryLoop get url retries fuel (i + 1)
          ⟨rest.result, .get url :: .sleep 1000 :: rest.events⟩
    else ⟨.ok none, []⟩

/-- The helper `axiosRetry(url, options = {}, retries = 2)`. -/
def axiosRetry (get : ApiClient) (url : String) (retries : Nat := 2) :
    Run (Except JError (Option Response)) :=
  axiosRetryLoop get url retries (retries + 1) 0

/-- The read `response.data` on the value `axiosRetry` resolved with. -/
def responseData : Option Response → Except JError JVal
  | none => .error typeError
  | some response => .ok response.data

/-! ## HTTP responses and the catch blocks -/

/-- What a handler sends: `res.status(status).json(body)`; `res.json(body)` sends 200.
`body` is the value handed to `res.json`, before serialisation. -/
structure HttpResponse where
  status : Nat
  body : JVal

/-- The catch block of `/api/profiles`. -/
def profilesCatch (error : JError) : HttpResponse :=
  if strictEqStr error.code "ETIMEDOUT" || strictEqStr error.code "ECONNABORTED" then
    ⟨503, .obj [("error", .str "Lichess API is currently unavailable. Please try again later."),
                ("code", .str "TIMEOUT")]⟩
  else if strictEqStr error.code "ENOTFOUND" || strictEqStr error.code "ECONNREFUSED" then
    ⟨503, .obj [("error", .str "Cannot connect to Lichess. Please check your internet connection."),
                ("code", .str "CONNECTION_ERROR")]⟩
  else
    ⟨500, .obj [("error", .str "Failed to fetch profiles")]⟩

/-- The catch block of `/api/profile/:username`. -/
def profileCatch (error : JError) : HttpResponse :=
  if strictEqNum (optProp error.response "status") 404 then
    ⟨404, .obj [("error", .str "User not found")]⟩
  else if strictEqStr error.code "ETIMEDOUT" || strictEqStr error.code "ECONNABORTED" then
    ⟨503, .obj [("error", .str "Lichess API is currently unavailable. Please try again later."),
                ("code", .str "TIMEOUT")]⟩
  else if strictEqStr error.code "ENOTFOUND" || strictEqStr error.code "ECONNREFUSED" then
    ⟨503, .obj [("error", .str "Cannot connect to Lichess. Please check your internet connection."),
                ("code", .str "CONNECTION_ERROR")]⟩
  else
    ⟨500, .obj [("error", .str "Failed to fetch user profile")]⟩

/-- The catch block of `/api/leaderboards/:gameType`. -/
def leaderboardCatch (error : JError) : HttpResponse :=
  if strictEqStr error.code "ETIMEDOUT" || strictEqStr error.code "ECONNABORTED" then
    ⟨503, .obj [("error", .str "Lichess API is currently unavailable. Please try again later."),
                ("code", .str "TIMEOUT")]⟩
  else if strictEqStr error.code "ENOTFOUND" || strictEqStr error.code "ECONNREFUSED" then
    ⟨503, .obj [("error", .str "Cannot connect to Lichess. Please check your internet connection."),
                ("code", .str "CONNECTION_ERROR")]⟩
  else
    ⟨500, .obj [("error", .str "Failed to fetch leaderboards")]⟩

/-- The catch block of `/api/leaderboards`. -/
def leaderboardsDefaultCatch (error : JError) : HttpResponse :=
  if strictEqStr error.code "ETIMEDOUT" || strictEqStr error.code "ECONNABORTED" then
    ⟨503, .obj [("error", .str "Lichess API is currently unavailable. Please try again later."),
                ("code", .str "TIMEOUT")]⟩
  else if strictEqStr error.code "ENOTFOUND" || strictEqStr error.code "ECONNREFUSED" then
    ⟨503, .obj [("error", .str "Cannot connect to Lichess. Please check your internet connection."),
                ("code", .str "CONNECTION_ERROR")]⟩
  else
    ⟨500, .obj [("error", .str "Failed to fetch leaderboards")]⟩

/-- The catch block of `/api/tournaments`. -/
def tournamentsCatch (error : JError) : HttpResponse :=
  if strictEqStr error.code "ETIMEDOUT" || strictEqStr error.code "ECONNABORTED" then
    ⟨503, .obj [("error", .str "Lichess API is currently unavailable. Please try again later."),
                ("code", .str "TIMEOUT")]⟩
  else if strictEqStr error.code "ENOTFOUND" || strictEqStr error.code "ECONNREFUSED" then
    ⟨503, .obj [("error", .str "Cannot connect to Lichess. Please check your internet connection."),
                ("code", .str "CONNECTION_ERROR")]⟩
  else
    ⟨500, .obj [("error", .str "Failed to fetch tournaments")]⟩

/-! ## `/api/profiles` -/

/-- The profile object built from an upstream user payload `data`, in the success
branch of `/api/profiles` and in `/api/profile/:username`.  The first read,
`data.username`, throws when `data` is `null` or `undefined`. -/
def buildProfile (data : JVal) : Except JError JVal := do
  let username ← getProp data "username"
  let profile ← getProp data "profile"
  let count ← getProp data "count"
  let perfs ← getProp data "perfs"
  let title ← getProp data "title"
  let online ← getProp data "online"
  pure (.obj [
    ("username", username),
    ("bio", jsOr (optProp profile "bio") (.str "No bio available")),
    ("gamesPlayed", jsOr (optProp count "all") (.num 0)),
    ("ratings", jsOr perfs (.obj [])),
    ("profileImage", jsOr (optProp profile "avatar") .null),
    ("title", jsOr title .null),
    ("online", jsOr online (.bool false)),
    ("country", jsOr (optProp profile "country") .null)])

/-- The text `${user.username}` of a leaderboard record inside a template literal. -/
def usernameText (user : JVal) : Except JError String :=
  getProp user "username" >>= toStr

/-- The catch block of the per-player callback of `/api/profiles`: the entry built
from the leaderboard record `user`.  Its log line prints `user.username`, which
throws when `user` is `null` or `undefined` or the username cannot be printed. -/
def degradedEntry (gameType : String) (user : JVal) : Except JError JVal := do
  let _ ← usernameText user
  let username ← getProp user "username"
  let perfs ← getProp user "perfs"
  let rating ← getProp user "rating"
  let title ← getProp user "title"
  let online ← getProp user "online"
  pure (.obj [
    ("username", username),
    ("bio", .str "No bio available"),
    ("gamesPlayed", .num 0),
    ("ratings", jsOr perfs (.obj [(gameType, .obj [("rating", jsOr rating (.num 0)), ("games", .num 0)])])),
    ("profileImage", .null),
    ("title", jsOr title .null),
    ("online", jsOr online (.bool false)),
    ("country", .null)])

/-- The async callback of `playersToFetch.map` for one leaderboard record: the
promise it returns is fulfilled with an entry (`ok`) or rejected (`error`). -/
def profileTask (get : ApiClient) (gameType : String) (user : JVal) :
    Run (Except JError JVal) :=
  match usernameText user with
  | .error _ => ⟨degradedEntry gameType user, []⟩
  | .ok name =>
    let call := axiosRetry get ("/user/" ++ name)
    match call.result >>= responseData >>= buildProfile with
    | .ok entry => ⟨.ok entry, call.events⟩
    | .error _ => ⟨degradedEntry gameType user, call.events⟩

/-- The callbacks of `playersToFetch.map`, the record at position `index` using the
upstream call number `index + 1` of the request (call 0 is the leaderboard fetch). -/
def profileTasks (upstream : Nat → ApiClient) (gameType : String) :
    Nat → List JVal → List (Run (Except JError JVal))
  | _, [] => []
  | index, user :: rest =>
    profileTask (upstream (index + 1)) gameType user :: profileTasks upstream gameType (index + 1) rest

/-- The values of the fulfilled promises, in order:
`profiles.filter(result => result.status === 'fulfilled').map(result => result.value)`. -/
def fulfilledValues : List (Run (Except JError JVal)) → List JVal
  | [] => []
  | task :: rest =>
    match task.result with
    | .ok value => value :: fulfilledValues rest
    | .error _ => fulfilledValues rest

/-- All upstream events of a list of callbacks, callback by callback. -/
def taskEvents : List (Run (Except JError JVal)) → List Event
  | [] => []
  | task :: rest => task.events ++ taskEvents rest

/-- The upstream path of a leaderboard fetch, `/player/top/${nb}/${gameType}`. -/
def leaderboardPath (nb gameType : JVal) : Except JError String := do
  let nbText ← toStr nb
  let gameTypeText ← toStr gameType
  pure ("/player/top/" ++ nbText ++ "/" ++ gameTypeText)

/-- The handler of `/api/profiles`, with the query values `req.query.nb` and
`req.query.gameType` (`undefined` when absent) and one oracle per upstream call.
The per-player callbacks run concurrently; their events are listed callback by
callback, after those of the leaderboard fetch. -/
def profilesRun (upstream : Nat → ApiClient) (queryNb queryGameType : JVal) : Run HttpResponse :=
  let nb := jsOr queryNb (.num 20)
  let gameType := jsOr queryGameType (.str "bullet")
  match leaderboardPath nb gameType, toStr gameType with
  | .ok path, .ok gameTypeText =>
    let call := axiosRetry (upstream 0) path
    match call.result >>= responseData with
    | .error error => ⟨profilesCatch error, call.events⟩
    | .ok data =>
      if !truthy data || !truthy (prop data "users") then
        ⟨⟨500, .obj [("error", .str "Invalid response from Lichess API")]⟩, call.events⟩
      else
        match prop data "users" with
        | .arr users =>
          let tasks := profileTasks upstream gameTypeText 0 (users.take 15)
          ⟨⟨200, .arr (fulfilledValues tasks)⟩, call.events ++ taskEvents tasks⟩
        | _ => ⟨profilesCatch typeError, call.events⟩
  | .error error, _ => ⟨profilesCatch error, []⟩
  | _, .error error => ⟨profilesCatch error, []⟩

/-- The response of `/api/profiles`. -/
def profilesHandler (upstream : Nat → ApiClient) (queryNb queryGameType : JVal) : HttpResponse :=
  (profilesRun upstream queryNb queryGameType).result

/-- The username of a leaderboard record can be read and printed: the record is not
`null` or `undefined` and its `username` is not an object with a field `toString`.
Every JSON object whose `username` is a string satisfies it. -/
def printsUsername (user : JVal) : Bool :=
  match usernameText user with
  | .ok _ => true
  | .error _ => false

/-- The leaderboard fetch of a `/api/profiles` request returned a response with body
`data`; `gameType` is the text of the requested variant. -/
def LeaderboardFetched (upstream : Nat → ApiClient) (queryNb queryGameType : JVal)
    (gameType : String) (data : JVal) : Prop :=
  ∃ nbText, toStr (jsOr queryNb (.num 20)) = .ok nbText ∧
    toStr (jsOr queryGameType (.str "bullet")) = .ok gameType ∧
    (axiosRetry (upstream 0) ("/player/top/" ++ nbText ++ "/" ++ gameType)).result
      = .ok (some ⟨data⟩)

/-! ## `/api/profile/:username` -/

/-- The handler of `/api/profile/:username`, with the route parameter `username`. -/
def profileHandler (get : ApiClient) (username : String) : HttpResponse :=
  match (axiosRetry get ("/user/" ++ username)).result >>= responseData >>= buildProfile with
  | .ok userProfile => ⟨200, userProfile⟩
  | .error error => profileCatch error

/-! ## `/api/leaderboards/:gameType` and `/api/leaderboards` -/

/-- The method `Array.prototype.map` with a callback that may throw: the first throw aborts the map. -/
def mapThrowing (f : JVal → Except JError JVal) : List JVal → Except JError (List JVal)
  | [] => .ok []
  | x :: rest =>
    match f x with
    | .error e => .error e
    | .ok y =>
      match mapThrowing f rest with
      | .error e => .error e
      | .ok ys => .ok (y :: ys)

/-- Value of a run of decimal digits, `none` when a character is not a digit. -/
def parseDigits : List Char → Nat → Option Nat
  | [], acc => some acc
  | c :: rest, acc =>
    if c.isDigit then parseDigits rest (acc * 10 + (c.toNat - 48)) else none

/-- The array index a property key denotes, when it is the canonical decimal text of one. -/
def arrayIndex (k : String) : Option Nat :=
  match k.data with
  | [] => none
  | [c] => parseDigits [c] 0
  | c :: rest => if c = '0' then none else parseDigits (c :: rest) 0

/-- The chain `perfs?.[gameType]?.rating`.  The computed read finds an own field of
an object or an element of an array; whatever else it can find (a character of a
string, `length`, a member inherited from a built-in prototype) has no `rating`. -/
def perfRating (perfs : JVal) (gameType : String) : JVal :=
  match perfs with
  | .obj fields =>
    match lookupField gameType fields with
    | some perf => optProp perf "rating"
    | none => .undefined
  | .arr items =>
    match arrayIndex gameType with
    | some i =>
      match items.get? i with
      | some perf => optProp perf "rating"
      | none => .undefined
    | none => .undefined
  | _ => .undefined

/-- The callback of `response.data.users.map` in both leaderboard handlers. -/
def leaderboardEntry (gameType : String) (user : JVal) : Except JError JVal := do
  let username ← getProp user "username"
  let title ← getProp user "title"
  let perfs ← getProp user "perfs"
  let rating ← getProp user "rating"
  let progress ← getProp user "progress"
  let online ← getProp user "online"
  let patron ← getProp user "patron"
  pure (.obj [
    ("username", username),
    ("title", jsOr title .null),
    ("rating", jsOr (perfRating perfs gameType) rating),
    ("progress", jsOr progress (.num 0)),
    ("online", jsOr online (.bool false)),
    ("patron", jsOr patron (.bool false))])

/-- The call `response.data.users.map(callback)`: it throws unless `users` is an array. -/
def mapUsers (callback : JVal → Except JError JVal) (data : JVal) : Except JError (List JVal) := do
  let users ← getProp data "users"
  match users with
  | .arr items => mapThrowing callback items
  | _ => .error typeError

/-- The expression `req.params.gameType || "bullet"` on a route parameter, which is a string. -/
def paramOrBullet (paramGameType : String) : String :=
  if paramGameType != "" then paramGameType else "bullet"

/-- The handler of `/api/leaderboards/:gameType`, with the route parameter
`req.params.gameType` and the query value `req.query.nb`, together with its
upstream events. -/
def leaderboardRun (get : ApiClient) (paramGameType : String) (queryNb : JVal) :
    Run HttpResponse :=
  let gameType := paramOrBullet paramGameType
  let nb := jsOr queryNb (.num 50)
  match leaderboardPath nb (.str gameType) with
  | .error error => ⟨leaderboardCatch error, []⟩
  | .ok path =>
    let call := axiosRetry get path
    match call.result >>= responseData >>= mapUsers (leaderboardEntry gameType) with
    | .ok leaderboard => ⟨⟨200, .arr leaderboard⟩, call.events⟩
    | .error error => ⟨leaderboardCatch error, call.events⟩

/-- The response of `/api/leaderboards/:gameType`. -/
def leaderboardHandler (get : ApiClient) (paramGameType : String) (queryNb : JVal) : HttpResponse :=
  (leaderboardRun get paramGameType queryNb).result

/-- The handler of `/api/leaderboards`, with the query value `req.query.nb`, together
with its upstream events. -/
def leaderboardsDefaultRun (get : ApiClient) (queryNb : JVal) : Run HttpResponse :=
  let gameType := "bullet"
  let nb := jsOr queryNb (.num 50)
  match leaderboardPath nb (.str gameType) with
  | .error error => ⟨leaderboardsDefaultCatch error, []⟩
  | .ok path =>
    let call := axiosRetry get path
    match call.result >>= responseData >>= mapUsers (leaderboardEntry gameType) with
    | .ok leaderboard => ⟨⟨200, .arr leaderboard⟩, call.events⟩
    | .error error => ⟨leaderboardsDefaultCatch error, call.events⟩

/-- The response of `/api/leaderboards`. -/
def leaderboardsDefaultHandler (get : ApiClient) (queryNb : JVal) : HttpResponse :=
  (leaderboardsDefaultRun get queryNb).result

/-! ## `/api/tournaments` -/

/-- The spread `...value` inside an array literal: the elements of an array, the
characters of a string, and a `TypeError` for a value that is not iterable. -/
def spread : JVal → Except JError (List JVal)
  | .arr items => .ok items
  | .str s => .ok (s.data.map fun c => .str (String.singleton c))
  | _ => .error typeError

/-- The callback of `allTournaments.slice(0, 20).map`. -/
def tournamentSummary (tournament : JVal) : Except JError JVal := do
  let id ← getProp tournament "id"
  let fullName ← getProp tournament "fullName"
  let name ← getProp tournament "name"
  let variant ← getProp tournament "variant"
  let rated ← getProp tournament "rated"
  let clock ← getProp tournament "clock"
  let startsAt ← getProp tournament "startsAt"
  let status ← getProp tournament "status"
  let nbPlayers ← getProp tournament "nbPlayers"
  let winner ← getProp tournament "winner"
  let perf ← getProp tournament "perf"
  let minutes ← getProp tournament "minutes"
  let system ← getProp tournament "system"
  pure (.obj [
    ("id", id),
    ("name", jsOr fullName name),
    ("variant", jsOr (optProp variant "name") (.str "Standard")),
    ("rated", rated),
    ("timeControl", clock),
    ("startsAt", startsAt),
    ("status", status),
    ("nbPlayers", jsOr nbPlayers (.num 0)),
    ("winner", jsOr winner .null),
    ("perf", perf),
    ("minutes", minutes),
    ("system", jsOr system (.str "arena"))])

/-- The array `[...(response.data.created || []), ...(response.data.started || [])]`. -/
def allTournaments (data : JVal) : Except JError (List JVal) := do
  let created ← getProp data "created"
  let started ← getProp data "started"
  let createdItems ← spread (jsOr created (.arr []))
  let startedItems ← spread (jsOr started (.arr []))
  pure (createdItems ++ startedItems)

/-- The try block of `/api/tournaments` after the fetch: concatenate, slice, reshape. -/
def tournamentsBody (data : JVal) : Except JError (List JVal) := do
  let all ← allTournaments data
  mapThrowing tournamentSummary (all.take 20)

/-- The handler of `/api/tournaments`. -/
def tournamentsHandler (get : ApiClient) : HttpResponse :=
  match (axiosRetry get "/tournament").result >>= responseData >>= tournamentsBody with
  | .ok tournaments => ⟨200, .arr tournaments⟩
  | .error error => tournamentsCatch error

/-! ## Sample upstreams -/

/-- Fifteen player names. -/
def sampleNames : List String :=
  ["p01", "p02", "p03", "p04", "p05", "p06", "p07", "p08", "p09", "p10",
   "p11", "p12", "p13", "p14", "p15"]

/-- A leaderboard record as upstream lists it for bullet. -/
def sampleUser (name : String) : JVal :=
  .obj [("id", .str name), ("username", .str name),
        ("perfs", .obj [("bullet", .obj [("rating", .num 3100), ("progress", .num 12)])]),
        ("title", .str "GM")]

/-- A leaderboard of fifteen records. -/
def sampleUsers : List JVal := sampleNames.map sampleUser

/-- A connection that timed out. -/
def timeoutError : JError := ⟨.str "ECONNABORTED", .undefined, "timeout of 10000ms exceeded"⟩

/-- An upstream whose leaderboard fetch returns `sampleUsers` and whose profile
fetches succeed except for the players at positions 2 and 7, which time out on
every attempt. -/
def sampleUpstream : Nat → ApiClient := fun call _ _ =>
  if call = 0 then .ok ⟨.obj [("users", .arr sampleUsers)]⟩
  else if call = 3 ∨ call = 8 then .error timeoutError
  else .ok ⟨.obj [("username", .str (sampleNames.getD (call - 1) "")),
                  ("count", .obj [("all", .num 4200)])]⟩

/-- An upstream whose leaderboard lists an untitled player and a player whose
`perfs` holds blitz only, and whose profile fetches all time out. -/
def untitledUpstream : Nat → ApiClient := fun call _ _ =>
  if call = 0 then
    .ok ⟨.obj [("users", .arr [
      .obj [("username", .str "anon"), ("perfs", .obj [("bullet", .obj [("rating", .num 2900)])])],
      .obj [("username", .str "blitzer"), ("title", .str "IM"),
            ("perfs", .obj [("blitz", .obj [("rating", .num 2800)])])]])]⟩
  else .error timeoutError

/-- An upstream whose leaderboard fetch returns a body without `users`. -/
def emptyBodyUpstream : Nat → ApiClient := fun _ _ _ => .ok ⟨.obj []⟩

/-- A refused connection. -/
def refusedError : JError := ⟨.str "ECONNREFUSED", .undefined, "connect ECONNREFUSED"⟩

/-- An upstream answer with status 404. -/
def notFoundError : JError :=
  ⟨.str "ERR_BAD_REQUEST", .obj [("status", .num 404)], "Request failed with status code 404"⟩

/-- An upstream that times out on every attempt. -/
def alwaysTimeout : ApiClient := fun _ _ => .error timeoutError

/-- An upstream that times out, then refuses the connection, then answers 404. -/
def threeErrors : ApiClient := fun _ attempt =>
  match attempt with
  | 0 => .error timeoutError
  | 1 => .error refusedError
  | _ => .error notFoundError

/-! ## The failure taxonomy of the specification -/

/-- The value `v` is an object with an own field `k`. -/
def hasField (k : String) (v : JVal) : Bool :=
  match v with
  | .obj fields => (lookupField k fields).isSome
  | _ => false

/-- The upstream request timed out or was aborted: `error.code` is `ETIMEDOUT` or
`ECONNABORTED`. -/
def isTimeout (error : JError) : Bool :=
  strictEqStr error.code "ETIMEDOUT" || strictEqStr error.code "ECONNABORTED"

/-- DNS failure or connection refused: `error.code` is `ENOTFOUND` or `ECONNREFUSED`. -/
def isConnectionFailure (error : JError) : Bool :=
  strictEqStr error.code "ENOTFOUND" || strictEqStr error.code "ECONNREFUSED"

/-- The error response the specification prescribes for an upstream error that is not
a 404 on a named user: 503 with code `TIMEOUT`, 503 with code `CONNECTION_ERROR`,
or 500 with an error string and no code; a code field exactly when the status is 503. -/
def FollowsTaxonomy (error : JError) (r : HttpResponse) : Prop :=
  (isTimeout error = true → r.status = 503 ∧ prop r.body "code" = .str "TIMEOUT") ∧
  (isConnectionFailure error = true →
    r.status = 503 ∧ prop r.body "code" = .str "CONNECTION_ERROR") ∧
  (isTimeout error = false → isConnectionFailure error = false →
    r.status = 500 ∧ (∃ text, prop r.body "error" = .str text) ∧ hasField "code" r.body = false) ∧
  (hasField "code" r.body = true ↔ r.status = 503)

/-- Nineteen tournaments not yet started. -/
def sampleCreated : List JVal :=
  (List.range 19).map fun k =>
    .obj [("id", .num k), ("fullName", .str "Hourly Bullet Arena"), ("status", .num 10)]

/-- Three tournaments in progress. -/
def sampleStarted : List JVal :=
  (List.range 3).map fun k =>
    .obj [("id", .num (100 + k)), ("name", .str "Daily Blitz"), ("status", .num 20)]

/-- An upstream tournament payload with 19 created and 3 started tournaments. -/
def sampleTournaments : JVal :=
  .obj [("created", .arr sampleCreated), ("started", .arr sampleStarted)]

/-- An upstream that serves `sampleTournaments` on the first attempt. -/
def tournamentsUpstream : ApiClient := fun _ _ => .ok ⟨sampleTournaments⟩

/-- An upstream that answers 404 on every attempt. -/
def alwaysNotFound : ApiClient := fun _ _ => .error notFoundError

/-- An upstream that refuses the connection on every attempt. -/
def alwaysRefused : ApiClient := fun _ _ => .error refusedError

/-- An upstream that fails every attempt with an error that has no code. -/
def alwaysBroken : ApiClient := fun _ _ => .error ⟨.undefined, .undefined, "socket hang up"⟩

/-! ## Requested urls -/

/-- The urls of the `apiClient.get` calls in a list of events, in order. -/
def requestedUrls : List Event → List String
  | [] => []
  | .get url :: rest => url :: requestedUrls rest
  | .sleep _ :: rest => requestedUrls rest

/-! ## Sample leaderboards -/

/-- A leaderboard record as upstream lists it for blitz, with the given rating. -/
def blitzUser (name : String) (rating : Int) : JVal :=
  .obj [("id", .str name), ("username", .str name),
        ("perfs", .obj [("blitz", .obj [("rating", .num rating), ("progress", .num 7)])])]

/-- Five blitz players with known ratings. -/
def blitzUsers : List JVal :=
  [blitzUser "a" 3010, blitzUser "b" 2987, blitzUser "c" 2950, blitzUser "d" 2931,
   blitzUser "e" 2904]

/-- An upstream that answers every leaderboard request with `blitzUsers`. -/
def blitzUpstream : ApiClient := fun _ _ => .ok ⟨.obj [("users", .arr blitzUsers)]⟩

/-- An upstream whose leaderboard holds one player with blitz rating 0. -/
def zeroRatedUpstream : ApiClient := fun _ _ =>
  .ok ⟨.obj [("users", .arr [blitzUser "zero" 0])]⟩

/-- An upstream user payload with a bio and a game count, no avatar, title or country. -/
def samplePayload : JVal :=
  .obj [("id", .str "p01"), ("username", .str "p01"),
        ("profile", .obj [("bio", .str "Bullet addict")]),
        ("count", .obj [("all", .num 4200)]),
        ("perfs", .obj [("bullet", .obj [("rating", .num 3100), ("games", .num 900)])]),
        ("online", .bool true)]

/-- An upstream that serves `samplePayload` on every request. -/
def payloadUpstream : ApiClient := fun _ _ => .ok ⟨samplePayload⟩

/-- An upstream that times out twice and answers on the third attempt. -/
def thirdTimeLucky : ApiClient := fun _ attempt =>
  match attempt with
  | 0 => .error timeoutError
  | 1 => .error timeoutError
  | _ => .ok ⟨samplePayload⟩

/-! ## The dashboard: rating colours (`Leaderboards.jsx`, `Profile.jsx`) -/

/-- The test `!rating` on the rating field of an entry: absent (`none`, the values
`undefined` and `null`) or a number. -/
def ratingFalsy : Option Int → Bool
  | none => true
  | some r => r == 0

/-- The comparison `rating < bound` on a number; it is evaluated only after `!rating`
was false, so never on an absent rating. -/
def ratingLt : Option Int → Int → Bool
  | none, _ => false
  | some r, bound => decide (r < bound)

namespace Leaderboards

/-- The function `getRatingColor` of `Leaderboards.jsx`. -/
def getRatingColor (rating : Option Int) : String :=
  if ratingFalsy rating || ratingLt rating 1200 then "#666"
  else if ratingLt rating 1400 then "#996633"
  else if ratingLt rating 1600 then "#669900"
  else if ratingLt rating 1800 then "#0099cc"
  else if ratingLt rating 2000 then "#9966cc"
  else if ratingLt rating 2200 then "#ff9900"
  else "#ff6600"

end Leaderboards

namespace Profile

/-- The function `getRatingColor` of `Profile.jsx`. -/
def getRatingColor (rating : Option Int) : String :=
  if ratingFalsy rating || ratingLt rating 1200 then "#666"
  else if ratingLt rating 1400 then "#996633"
  else if ratingLt rating 1600 then "#669900"
  else if ratingLt rating 1800 then "#0099cc"
  else if ratingLt rating 2000 then "#9966cc"
  else if ratingLt rating 2200 then "#ff9900"
  else "#ff6600"

end Profile

/-- The band of a rating under the thresholds 1200, 1400, 1600, 1800, 2000, 2200:
band 0 below 1200, band 6 from 2200 on. -/
def ratingBand (r : Int) : Nat :=
  if r < 1200 then 0
  else if r < 1400 then 1
  else if r < 1600 then 2
  else if r < 1800 then 3
  else if r < 2000 then 4
  else if r < 2200 then 5
  else 6

/-- The colour of each of the seven bands. -/
def bandColour : Nat → String
  | 0 => "#666"
  | 1 => "#996633"
  | 2 => "#669900"
  | 3 => "#0099cc"
  | 4 => "#9966cc"
  | 5 => "#ff9900"
  | _ => "#ff6600"

/-- An upstream whose leaderboard lists one bare record, with a top-level rating
and neither title, perfs nor online flag, and whose profile fetches all time out. -/
def bareUpstream : Nat → ApiClient := fun call _ _ =>
  if call = 0 then
    .ok ⟨.obj [("users", .arr [.obj [("username", .str "bare"), ("rating", .num 2450)]])]⟩
  else .error timeoutError

/-- A leaderboard of seventeen records. -/
def crowdedUsers : List JVal := sampleUsers ++ [sampleUser "p16", sampleUser "p17"]

/-- An upstream whose leaderboard fetch returns `crowdedUsers` and whose profile
fetches succeed except for the players at positions 2 and 7, which time out on
every attempt. -/
def crowdedUpstream : Nat → ApiClient := fun call _ _ =>
  if call = 0 then .ok ⟨.obj [("users", .arr crowdedUsers)]⟩
  else if call = 3 ∨ call = 8 then .error timeoutError
  else .ok ⟨.obj [("username", .str (sampleNames.getD (call - 1) "")),
                  ("count", .obj [("all", .num 4200)])]⟩

/-- An upstream whose leaderboard fetch returns `sampleUsers` on its third attempt
and whose profile fetches time out on every attempt. -/
def worstUpstream : Nat → ApiClient := fun call _ attempt =>
  if call = 0 ∧ attempt = 2 then .ok ⟨.obj [("users", .arr sampleUsers)]⟩
  else .error timeoutError

/-! ## The retry helper: properties -/

/-- With the default `retries = 2`, `axiosRetry` is three nested attempts. -/
theorem axiosRetry_unfold (get : ApiClient) (url : String) :
    axiosRetry get url =
      match get url 0 with
      | .ok r => ⟨.ok (some r), [.get url]⟩
      | .error _ =>
        match get url 1 with
        | .ok r => ⟨.ok (some r), [.get url, .sleep 1000, .get url]⟩
        | .error _ =>
          match get url 2 with
          | .ok r => ⟨.ok (some r), [.get url, .sleep 1000, .get url, .sleep 1000, .get url]⟩
          | .error e => ⟨.error e, [.get url, .sleep 1000, .get url, .sleep 1000, .get url]⟩ := by
  simp only [axiosRetry, axiosRetryLoop]
  cases get url 0 <;> cases get url 1 <;> cases get url 2 <;> simp

/-- The loop started at an index `i` within range, with fuel for the remaining
iterations, returns a response or throws: it neither runs out of fuel nor falls
out of the loop. -/
theorem axiosRetryLoop_returns_or_throws (get : ApiClient) (url : String) (retries : Nat) :
    ∀ fuel i, i + fuel = retries + 1 → 0 < fuel →
      (∃ r, (axiosRetryLoop get url retries fuel i).result = .ok (some r)) ∨
      (∃ e, (axiosRetryLoop get url retries fuel i).result = .error e) := by
  intro fuel
  induction fuel with
  | zero => intro i _ h; exact absurd h (Nat.lt_irrefl 0)
  | succ fuel ih =>
    intro i hsum _
    have hle : i ≤ retries := by omega
    simp only [axiosRetryLoop, hle, if_true]
    cases hget : get url i with
    | ok r => exact Or.inl ⟨r, rfl⟩
    | error e =>
      by_cases hlast : i = retries
      · simp only [hlast, if_true]
        exact Or.inr ⟨e, rfl⟩
      · simp only [hlast, if_false]
        exact ih (i + 1) (by omega) (by omega)

/-- For every retry count, `axiosRetry` returns a response or throws an error. -/
theorem axiosRetry_returns_or_throws (get : ApiClient) (url : String) (retries : Nat) :
    (∃ r, (axiosRetry get url retries).result = .ok (some r)) ∨
    (∃ e, (axiosRetry get url retries).result = .error e) :=
  axiosRetryLoop_returns_or_throws get url retries (retries + 1) 0 (by omega) (by omega)

/-- C1: when every call of `apiClient.get(url)` fails, `axiosRetry(url)` with the
default `retries = 2` makes exactly 3 attempts and then throws. -/
theorem axiosRetry_three_attempts_when_all_fail (get : ApiClient) (url : String)
    (hfail : ∀ i, ∃ e, get url i = .error e) :
    attempts (axiosRetry get url).events = 3 ∧ ∃ e, (axiosRetry get url).result = .error e := by
  obtain ⟨e0, h0⟩ := hfail 0
  obtain ⟨e1, h1⟩ := hfail 1
  obtain ⟨e2, h2⟩ := hfail 2
  rw [axiosRetry_unfold]
  simp only [h0, h1, h2]
  exact ⟨rfl, e2, rfl⟩

theorem axiosRetry_three_attempts_when_all_fail_witness :
    (∀ i, ∃ e, alwaysTimeout "/tournament" i = .error e) ∧
    attempts (axiosRetry alwaysTimeout "/tournament").events = 3 ∧
    ∃ e, (axiosRetry alwaysTimeout "/tournament").result = .error e :=
  ⟨fun _ => ⟨_, rfl⟩, axiosRetry_three_attempts_when_all_fail alwaysTimeout "/tournament" (fun _ => ⟨_, rfl⟩)⟩

/-- C2: when the three attempts of `axiosRetry` (default `retries = 2`) fail with
`e1`, `e2`, `e3`, the error thrown is `e3`, the error of the final attempt. -/
theorem axiosRetry_throws_final_error (get : ApiClient) (url : String) (e1 e2 e3 : JError)
    (h1 : get url 0 = .error e1) (h2 : get url 1 = .error e2) (h3 : get url 2 = .error e3) :
    (axiosRetry get url).result = .error e3 ∧
      ∀ e, (axiosRetry get url).result = .error e → e = e3 := by
  have hres : (axiosRetry get url).result = .error e3 := by
    rw [axiosRetry_unfold]
    simp only [h1, h2, h3]
  refine ⟨hres, ?_⟩
  intro e he
  rw [hres] at he
  injection he with he
  exact he.symm

theorem axiosRetry_throws_final_error_witness :
    (axiosRetry threeErrors "/user/nobody").result = .error notFoundError ∧
      ∀ e, (axiosRetry threeErrors "/user/nobody").result = .error e → e = notFoundError :=
  axiosRetry_throws_final_error threeErrors "/user/nobody" timeoutError refusedError notFoundError
    rfl rfl rfl


/-! ## `/api/profiles`: properties -/

theorem usernameText_of_prints {user : JVal} (h : printsUsername user = true) :
    ∃ name, usernameText user = .ok name := by
  unfold printsUsername at h
  cases hu : usernameText user with
  | ok name => exact ⟨name, rfl⟩
  | error e => simp [hu] at h

theorem nullish_of_usernameText {user : JVal} {name : String}
    (h : usernameText user = .ok name) : nullish user = false := by
  cases hn : nullish user with
  | false => rfl
  | true => simp [usernameText, getProp, hn, bind, Except.bind] at h

/-- The entry the catch block builds for a record whose username prints. -/
theorem degradedEntry_ok {user : JVal} {name : String} (gameType : String)
    (h : usernameText user = .ok name) :
    degradedEntry gameType user = .ok (.obj [
      ("username", prop user "username"),
      ("bio", .str "No bio available"),
      ("gamesPlayed", .num 0),
      ("ratings", jsOr (prop user "perfs")
        (.obj [(gameType, .obj [("rating", jsOr (prop user "rating") (.num 0)), ("games", .num 0)])])),
      ("profileImage", .null),
      ("title", jsOr (prop user "title") .null),
      ("online", jsOr (prop user "online") (.bool false)),
      ("country", .null)]) := by
  have hn := nullish_of_usernameText h
  simp [degradedEntry, h, getProp, hn, bind, Except.bind, pure, Except.pure]

/-- The profile object built from a body that is neither `null` nor `undefined`. -/
theorem buildProfile_ok {data : JVal} (h : nullish data = false) :
    buildProfile data = .ok (.obj [
      ("username", prop data "username"),
      ("bio", jsOr (optProp (prop data "profile") "bio") (.str "No bio available")),
      ("gamesPlayed", jsOr (optProp (prop data "count") "all") (.num 0)),
      ("ratings", jsOr (prop data "perfs") (.obj [])),
      ("profileImage", jsOr (optProp (prop data "profile") "avatar") .null),
      ("title", jsOr (prop data "title") .null),
      ("online", jsOr (prop data "online") (.bool false)),
      ("country", jsOr (optProp (prop data "profile") "country") .null)]) := by
  simp [buildProfile, getProp, h, bind, Except.bind, pure, Except.pure]

theorem buildProfile_nullish {data : JVal} (h : nullish data = true) :
    buildProfile data = .error typeError := by
  simp [buildProfile, getProp, h, bind, Except.bind]

/-- A callback whose record prints its username always fulfils. -/
theorem profileTask_fulfilled (get : ApiClient) (gameType : String) {user : JVal} {name : String}
    (h : usernameText user = .ok name) :
    ∃ entry, (profileTask get gameType user).result = .ok entry := by
  unfold profileTask
  simp only [h]
  cases hb : (axiosRetry get ("/user/" ++ name)).result >>= responseData >>= buildProfile with
  | ok entry => exact ⟨entry, rfl⟩
  | error e => exact ⟨_, degradedEntry_ok gameType h⟩

/-- A callback whose fetch throws resolves with the catch block's entry. -/
theorem profileTask_of_fetch_error (get : ApiClient) (gameType : String) {user : JVal}
    {name : String} {e : JError} (h : usernameText user = .ok name)
    (hfetch : (axiosRetry get ("/user/" ++ name)).result = .error e) :
    (profileTask get gameType user).result = degradedEntry gameType user := by
  unfold profileTask
  simp [h, hfetch, bind, Except.bind]

/-- A callback whose fetch returns a body resolves with the profile built from it,
or with the catch block's entry when the body is `null` or `undefined`. -/
theorem profileTask_of_fetch_ok (get : ApiClient) (gameType : String) {user : JVal}
    {name : String} {data : JVal} (h : usernameText user = .ok name)
    (hfetch : (axiosRetry get ("/user/" ++ name)).result = .ok (some ⟨data⟩)) :
    (profileTask get gameType user).result =
      if nullish data then degradedEntry gameType user else buildProfile data := by
  unfold profileTask
  cases hn : nullish data with
  | false => simp [h, hfetch, bind, Except.bind, responseData, buildProfile_ok hn]
  | true => simp [h, hfetch, bind, Except.bind, responseData, buildProfile_nullish hn]


theorem profileTasks_length (upstream : Nat → ApiClient) (gameType : String) (users : List JVal) :
    ∀ index, (profileTasks upstream gameType index users).length = users.length := by
  induction users with
  | nil => intro index; rfl
  | cons u rest ih => intro index; simp [profileTasks, ih]

/-- The callback at position `j` is the one of the record at position `j`, run
against upstream call `index + j + 1`. -/
theorem profileTasks_getElem? (upstream : Nat → ApiClient) (gameType : String) (users : List JVal) :
    ∀ index j, (profileTasks upstream gameType index users)[j]? =
      (users[j]?).map fun u => profileTask (upstream (index + j + 1)) gameType u := by
  induction users with
  | nil => intro index j; simp [profileTasks]
  | cons u rest ih =>
    intro index j
    cases j with
    | zero => simp [profileTasks]
    | succ j =>
      simp only [profileTasks, List.getElem?_cons_succ, ih]
      have : index + 1 + j + 1 = index + (j + 1) + 1 := by omega
      rw [this]

/-- When every record prints its username no promise is rejected: the fulfilled
values are the results of the callbacks, one for one and in order. -/
theorem fulfilledValues_all (upstream : Nat → ApiClient) (gameType : String) (users : List JVal)
    (hprints : ∀ u ∈ users, printsUsername u = true) :
    ∀ index, (profileTasks upstream gameType index users).map (fun task => task.result) =
      (fulfilledValues (profileTasks upstream gameType index users)).map .ok := by
  induction users with
  | nil => intro index; rfl
  | cons u rest ih =>
    intro index
    obtain ⟨name, hname⟩ := usernameText_of_prints (hprints u (List.mem_cons_self _ _))
    obtain ⟨entry, hentry⟩ := profileTask_fulfilled (upstream (index + 1)) gameType hname
    have ih' := ih (fun v hv => hprints v (List.mem_cons_of_mem _ hv)) (index + 1)
    simp only [profileTasks, fulfilledValues, hentry, List.map_cons, ih']

/-- The response of `/api/profiles` once the leaderboard fetch returned a body with
an array `users`. -/
theorem profilesHandler_of_users {upstream : Nat → ApiClient} {queryNb queryGameType : JVal}
    {gameType : String} {data : JVal} {users : List JVal}
    (hfetch : LeaderboardFetched upstream queryNb queryGameType gameType data)
    (husers : prop data "users" = .arr users) :
    profilesHandler upstream queryNb queryGameType =
      ⟨200, .arr (fulfilledValues (profileTasks upstream gameType 0 (users.take 15)))⟩ := by
  obtain ⟨nbText, hnb, hgt, hcall⟩ := hfetch
  have hdata : truthy data = true := by
    cases data <;> first | rfl | simp [prop] at husers
  have harr : truthy (.arr users) = true := rfl
  simp [profilesHandler, profilesRun, leaderboardPath, hnb, hgt, hcall, bind, Except.bind,
    pure, Except.pure, responseData, husers, hdata, harr]


/-- With a body holding an array `users` of records that print their username, the
response is 200 with one entry per record among the first 15, the entry at position
`i` being the value the callback of the record at position `i` resolved with. -/
theorem profiles_entries {upstream : Nat → ApiClient} {queryNb queryGameType : JVal}
    {gameType : String} {data : JVal} {users : List JVal}
    (hfetch : LeaderboardFetched upstream queryNb queryGameType gameType data)
    (husers : prop data "users" = .arr users)
    (hrecords : ∀ u ∈ users, printsUsername u = true) :
    ∃ entries, profilesHandler upstream queryNb queryGameType = ⟨200, .arr entries⟩ ∧
      entries.length = min users.length 15 ∧
      ∀ i user, i < 15 → users[i]? = some user →
        ∃ entry, entries[i]? = some entry ∧
          (profileTask (upstream (i + 1)) gameType user).result = .ok entry := by
  have hall := fulfilledValues_all upstream gameType (users.take 15)
    (fun u hu => hrecords u (List.mem_of_mem_take hu)) 0
  refine ⟨_, profilesHandler_of_users hfetch husers, ?_, ?_⟩
  · have hlen := congrArg List.length hall
    simp only [List.length_map, profileTasks_length, List.length_take] at hlen
    rw [← hlen, Nat.min_comm]
  · intro i user hi huser
    have hget := congrArg (fun l => l[i]?) hall
    simp only [List.getElem?_map, profileTasks_getElem?, List.getElem?_take_of_lt hi, huser,
      Option.map_some', Nat.zero_add] at hget
    cases hentry : (fulfilledValues (profileTasks upstream gameType 0 (users.take 15)))[i]? with
    | none => simp [hentry] at hget
    | some entry =>
      refine ⟨entry, rfl, ?_⟩
      simpa [hentry] using hget

/-- C4: the entry at position `i` of the `/api/profiles` response is the entry built
for the record at position `i` among the first 15 leaderboard users: from the
leaderboard record when its profile fetch fails, from the fetched profile when the
fetch returns one.  The response is in leaderboard order whichever fetches fail. -/
theorem profiles_in_leaderboard_order (upstream : Nat → ApiClient) (queryNb queryGameType : JVal)
    (gameType : String) (data : JVal) (users : List JVal)
    (hfetch : LeaderboardFetched upstream queryNb queryGameType gameType data)
    (husers : prop data "users" = .arr users)
    (hrecords : ∀ u ∈ users, printsUsername u = true) :
    ∃ entries, profilesHandler upstream queryNb queryGameType = ⟨200, .arr entries⟩ ∧
      entries.length = min users.length 15 ∧
      ∀ i user, i < 15 → users[i]? = some user →
        ∃ name entry, usernameText user = .ok name ∧ entries[i]? = some entry ∧
          (∀ e, (axiosRetry (upstream (i + 1)) ("/user/" ++ name)).result = .error e →
            degradedEntry gameType user = .ok entry) ∧
          (∀ profile, (axiosRetry (upstream (i + 1)) ("/user/" ++ name)).result
              = .ok (some ⟨profile⟩) → nullish profile = false →
            buildProfile profile = .ok entry) := by
  obtain ⟨entries, hresp, hlen, hat⟩ := profiles_entries hfetch husers hrecords
  refine ⟨entries, hresp, hlen, ?_⟩
  intro i user hi huser
  obtain ⟨entry, hentry, htask⟩ := hat i user hi huser
  obtain ⟨name, hname⟩ := usernameText_of_prints (hrecords user (List.getElem?_mem huser))
  refine ⟨name, entry, hname, hentry, ?_, ?_⟩
  · intro e he
    rw [← htask, profileTask_of_fetch_error _ _ hname he]
  · intro profile hp hn
    rw [← htask, profileTask_of_fetch_ok _ _ hname hp, hn]
    rfl


theorem profiles_in_leaderboard_order_witness :
    ∃ entries, profilesHandler sampleUpstream .undefined .undefined = ⟨200, .arr entries⟩ ∧
      entries.length = min sampleUsers.length 15 ∧
      ∀ i user, i < 15 → sampleUsers[i]? = some user →
        ∃ name entry, usernameText user = .ok name ∧ entries[i]? = some entry ∧
          (∀ e, (axiosRetry (sampleUpstream (i + 1)) ("/user/" ++ name)).result = .error e →
            degradedEntry "bullet" user = .ok entry) ∧
          (∀ profile, (axiosRetry (sampleUpstream (i + 1)) ("/user/" ++ name)).result
              = .ok (some ⟨profile⟩) → nullish profile = false →
            buildProfile profile = .ok entry) :=
  profiles_in_leaderboard_order sampleUpstream .undefined .undefined "bullet"
    (.obj [("users", .arr sampleUsers)]) sampleUsers ⟨"20", rfl, rfl, rfl⟩ rfl (by decide)

/-- C5: for a leaderboard record whose profile fetch fails inside `/api/profiles`,
the entry at its position has the record's username, bio "No bio available",
gamesPlayed 0, country null and profileImage null. -/
theorem profiles_degraded_defaults (upstream : Nat → ApiClient) (queryNb queryGameType : JVal)
    (gameType : String) (data : JVal) (users : List JVal) (i : Nat) (user : JVal)
    (name : String) (e : JError)
    (hfetch : LeaderboardFetched upstream queryNb queryGameType gameType data)
    (husers : prop data "users" = .arr users)
    (hrecords : ∀ u ∈ users, printsUsername u = true)
    (hi : i < 15) (huser : users[i]? = some user) (hname : usernameText user = .ok name)
    (hfail : (axiosRetry (upstream (i + 1)) ("/user/" ++ name)).result = .error e) :
    ∃ entries entry, profilesHandler upstream queryNb queryGameType = ⟨200, .arr entries⟩ ∧
      entries[i]? = some entry ∧
      prop entry "username" = prop user "username" ∧
      prop entry "bio" = .str "No bio available" ∧
      prop entry "gamesPlayed" = .num 0 ∧
      prop entry "country" = .null ∧
      prop entry "profileImage" = .null := by
  obtain ⟨entries, hresp, _, hat⟩ := profiles_entries hfetch husers hrecords
  obtain ⟨entry, hentry, htask⟩ := hat i user hi huser
  rw [profileTask_of_fetch_error _ _ hname hfail, degradedEntry_ok gameType hname] at htask
  injection htask with htask
  subst htask
  exact ⟨entries, _, hresp, hentry, rfl, rfl, rfl, rfl, rfl⟩

theorem profiles_degraded_defaults_witness :
    ∃ entries entry, profilesHandler sampleUpstream .undefined .undefined = ⟨200, .arr entries⟩ ∧
      entries[2]? = some entry ∧
      prop entry "username" = prop (sampleUser "p03") "username" ∧
      prop entry "bio" = .str "No bio available" ∧
      prop entry "gamesPlayed" = .num 0 ∧
      prop entry "country" = .null ∧
      prop entry "profileImage" = .null :=
  profiles_degraded_defaults sampleUpstream .undefined .undefined "bullet"
    (.obj [("users", .arr sampleUsers)]) sampleUsers 2 (sampleUser "p03") "p03" timeoutError
    ⟨"20", rfl, rfl, rfl⟩ rfl (by decide) (by decide) rfl rfl rfl


theorem nullish_of_truthy {v : JVal} (h : truthy v = true) : nullish v = false := by
  cases v <;> first | rfl | simp [truthy] at h

/-- The expression `a || b` is never `null` or `undefined` when `b` is not. -/
theorem nullish_jsOr {a b : JVal} (hb : nullish b = false) : nullish (jsOr a b) = false := by
  unfold jsOr
  split
  · next h => exact nullish_of_truthy h
  · exact hb

/-- C6, as the code has it: in the entry built for a record whose profile fetch
fails, `online` is the record's `online` or `false` and is never null; `title` is
the record's title when that is truthy and null otherwise; `ratings` is the
record's `perfs` when that is truthy, and otherwise the single block
`{[gameType]: {rating: user.rating || 0, games: 0}}`, whose rating for the
requested variant is not null. -/
theorem profiles_degraded_basic_fields (upstream : Nat → ApiClient) (queryNb queryGameType : JVal)
    (gameType : String) (data : JVal) (users : List JVal) (i : Nat) (user : JVal)
    (name : String) (e : JError)
    (hfetch : LeaderboardFetched upstream queryNb queryGameType gameType data)
    (husers : prop data "users" = .arr users)
    (hrecords : ∀ u ∈ users, printsUsername u = true)
    (hi : i < 15) (huser : users[i]? = some user) (hname : usernameText user = .ok name)
    (hfail : (axiosRetry (upstream (i + 1)) ("/user/" ++ name)).result = .error e) :
    ∃ entries entry, profilesHandler upstream queryNb queryGameType = ⟨200, .arr entries⟩ ∧
      entries[i]? = some entry ∧
      prop entry "online" = jsOr (prop user "online") (.bool false) ∧
      nullish (prop entry "online") = false ∧
      prop entry "title" = jsOr (prop user "title") .null ∧
      (truthy (prop user "title") = true → prop entry "title" = prop user "title") ∧
      (truthy (prop user "title") = false → prop entry "title" = .null) ∧
      (truthy (prop user "perfs") = true → prop entry "ratings" = prop user "perfs") ∧
      (truthy (prop user "perfs") = false →
        prop entry "ratings" = .obj [(gameType,
          .obj [("rating", jsOr (prop user "rating") (.num 0)), ("games", .num 0)])] ∧
        perfRating (prop entry "ratings") gameType = jsOr (prop user "rating") (.num 0) ∧
        nullish (perfRating (prop entry "ratings") gameType) = false) := by
  obtain ⟨entries, hresp, _, hat⟩ := profiles_entries hfetch husers hrecords
  obtain ⟨entry, hentry, htask⟩ := hat i user hi huser
  rw [profileTask_of_fetch_error _ _ hname hfail, degradedEntry_ok gameType hname] at htask
  injection htask with htask
  subst htask
  refine ⟨entries, _, hresp, hentry, rfl, ?_, rfl, ?_, ?_, ?_, ?_⟩
  · exact nullish_jsOr rfl
  · intro ht
    show jsOr (prop user "title") .null = prop user "title"
    simp only [jsOr, ht, if_true]
  · intro ht
    show jsOr (prop user "title") .null = .null
    simp [jsOr, ht]
  · intro hp
    show jsOr (prop user "perfs") _ = prop user "perfs"
    simp only [jsOr, hp, if_true]
  · intro hp
    have hr : jsOr (prop user "perfs")
        (.obj [(gameType, .obj [("rating", jsOr (prop user "rating") (.num 0)),
          ("games", .num 0)])])
        = .obj [(gameType, .obj [("rating", jsOr (prop user "rating") (.num 0)),
          ("games", .num 0)])] := by
      simp [jsOr, hp]
    have hrating : perfRating (.obj [(gameType, .obj [("rating",
        jsOr (prop user "rating") (.num 0)), ("games", .num 0)])]) gameType
        = jsOr (prop user "rating") (.num 0) := by
      simp only [perfRating, lookupField, if_true]
      rfl
    show jsOr (prop user "perfs") _ = _ ∧ perfRating (jsOr (prop user "perfs") _) gameType = _ ∧
      nullish (perfRating (jsOr (prop user "perfs") _) gameType) = false
    rw [hr, hrating]
    exact ⟨rfl, rfl, nullish_jsOr rfl⟩

theorem profiles_degraded_basic_fields_witness :
    (∃ entries entry, profilesHandler bareUpstream .undefined .undefined = ⟨200, .arr entries⟩ ∧
      entries[0]? = some entry ∧
      prop entry "online" = .bool false ∧
      prop entry "title" = .null ∧
      prop entry "ratings"
        = .obj [("bullet", .obj [("rating", .num 2450), ("games", .num 0)])] ∧
      perfRating (prop entry "ratings") "bullet" = .num 2450) ∧
    (∃ entries entry, profilesHandler sampleUpstream .undefined .undefined = ⟨200, .arr entries⟩ ∧
      entries[7]? = some entry ∧
      prop entry "online" = .bool false ∧
      prop entry "title" = .str "GM" ∧
      prop entry "ratings" = prop (sampleUser "p08") "perfs") := by
  constructor
  · obtain ⟨entries, entry, hresp, hentry, honline, _, _, _, htitle, _, hratings⟩ :=
      profiles_degraded_basic_fields bareUpstream .undefined .undefined "bullet"
        (.obj [("users", .arr [.obj [("username", .str "bare"), ("rating", .num 2450)]])])
        [.obj [("username", .str "bare"), ("rating", .num 2450)]] 0
        (.obj [("username", .str "bare"), ("rating", .num 2450)]) "bare" timeoutError
        ⟨"20", rfl, rfl, rfl⟩ rfl (by decide) (by decide) rfl rfl rfl
    exact ⟨entries, entry, hresp, hentry, honline, htitle rfl, (hratings rfl).1,
      (hratings rfl).2.1⟩
  · obtain ⟨entries, entry, hresp, hentry, honline, _, _, htitle, _, hratings, _⟩ :=
      profiles_degraded_basic_fields sampleUpstream .undefined .undefined "bullet"
        (.obj [("users", .arr sampleUsers)]) sampleUsers 7 (sampleUser "p08") "p08" timeoutError
        ⟨"20", rfl, rfl, rfl⟩ rfl (by decide) (by decide) rfl rfl rfl
    exact ⟨entries, entry, hresp, hentry, honline, htitle rfl, hratings rfl⟩

/-- C6 fails as stated: with every profile fetch timing out, the entry of an
untitled leaderboard player has `title` null, and the entry of a player whose
`perfs` lacks the requested variant has no rating for it. -/
theorem profiles_degraded_title_null :
    ∃ first second, profilesHandler untitledUpstream .undefined .undefined
        = ⟨200, .arr [first, second]⟩ ∧
      prop first "username" = .str "anon" ∧ prop first "title" = .null ∧
      prop second "username" = .str "blitzer" ∧
      perfRating (prop second "ratings") "bullet" = .undefined :=
  ⟨_, _, rfl, rfl, rfl, rfl, rfl⟩



/-- C7 fails as stated: the leaderboard fetch returns a response, its body has no
`users`, and the handler answers 500. -/
theorem profiles_invalid_body_is_500 :
    LeaderboardFetched emptyBodyUpstream .undefined .undefined "bullet" (.obj []) ∧
      profilesHandler emptyBodyUpstream .undefined .undefined
        = ⟨500, .obj [("error", .str "Invalid response from Lichess API")]⟩ :=
  ⟨⟨"20", rfl, rfl, rfl⟩, rfl⟩

/-- C7, as the code has it: once the leaderboard fetch has returned a response, the
handler answers 200 with an array whenever the body holds an array `users`,
whatever the per-player fetches do; it answers 500 "Invalid response from Lichess
API" when the body or its `users` is missing or falsy, and 500 "Failed to fetch
profiles" when `users` is truthy but not an array. -/
theorem profiles_status_after_fetch (upstream : Nat → ApiClient) (queryNb queryGameType : JVal)
    (gameType : String) (data : JVal)
    (hfetch : LeaderboardFetched upstream queryNb queryGameType gameType data) :
    (∀ users, prop data "users" = .arr users →
      (profilesHandler upstream queryNb queryGameType).status = 200 ∧
      ∃ entries, (profilesHandler upstream queryNb queryGameType).body = .arr entries) ∧
    (truthy data = false ∨ truthy (prop data "users") = false →
      profilesHandler upstream queryNb queryGameType
        = ⟨500, .obj [("error", .str "Invalid response from Lichess API")]⟩) ∧
    (truthy data = true → truthy (prop data "users") = true →
      (∀ users, prop data "users" ≠ .arr users) →
      profilesHandler upstream queryNb queryGameType
        = ⟨500, .obj [("error", .str "Failed to fetch profiles")]⟩) := by
  refine ⟨?_, ?_, ?_⟩
  · intro users husers
    rw [profilesHandler_of_users hfetch husers]
    exact ⟨rfl, _, rfl⟩
  · intro hfalsy
    obtain ⟨nbText, hnb, hgt, hcall⟩ := hfetch
    have hguard : (!truthy data || !truthy (prop data "users")) = true := by
      rcases hfalsy with h | h <;> simp [h]
    simp only [profilesHandler, profilesRun, leaderboardPath, hnb, hgt, hcall, bind, Except.bind,
      pure, Except.pure, responseData, hguard, if_true]
  · intro hdata husers hnot
    obtain ⟨nbText, hnb, hgt, hcall⟩ := hfetch
    have hguard : (!truthy data || !truthy (prop data "users")) = false := by
      simp [hdata, husers]
    simp only [profilesHandler, profilesRun, leaderboardPath, hnb, hgt, hcall, bind, Except.bind,
      pure, Except.pure, responseData, hguard]
    cases hu : prop data "users" with
    | arr users => exact absurd hu (hnot users)
    | _ => rfl

theorem profiles_status_after_fetch_witness :
    LeaderboardFetched sampleUpstream .undefined .undefined "bullet"
        (.obj [("users", .arr sampleUsers)]) ∧
      (profilesHandler sampleUpstream .undefined .undefined).status = 200 ∧
      ∃ entries, (profilesHandler sampleUpstream .undefined .undefined).body = .arr entries :=
  ⟨⟨"20", rfl, rfl, rfl⟩,
    (profiles_status_after_fetch sampleUpstream .undefined .undefined "bullet"
      (.obj [("users", .arr sampleUsers)]) ⟨"20", rfl, rfl, rfl⟩).1 sampleUsers rfl⟩

/-! ## `/api/tournaments`: properties -/

/-- The summary built from a tournament that is neither `null` nor `undefined`. -/
theorem tournamentSummary_ok {tournament : JVal} (h : nullish tournament = false) :
    ∃ summary, tournamentSummary tournament = .ok summary := by
  simp [tournamentSummary, getProp, h, bind, Except.bind, pure, Except.pure]

/-- A map whose callback never throws returns the results, one for one and in order. -/
theorem mapThrowing_ok (f : JVal → Except JError JVal) (items : List JVal)
    (h : ∀ x ∈ items, ∃ y, f x = .ok y) :
    ∃ ys, mapThrowing f items = .ok ys ∧ items.map f = ys.map .ok := by
  induction items with
  | nil => exact ⟨[], rfl, rfl⟩
  | cons x rest ih =>
    obtain ⟨y, hy⟩ := h x (List.mem_cons_self _ _)
    obtain ⟨ys, hys, hmap⟩ := ih (fun z hz => h z (List.mem_cons_of_mem _ hz))
    exact ⟨y :: ys, by simp [mapThrowing, hy, hys], by simp [hy, hmap]⟩

theorem mapThrowing_append (f : JVal → Except JError JVal) (front back : List JVal)
    (ys zs : List JVal) (hfront : mapThrowing f front = .ok ys)
    (hback : mapThrowing f back = .ok zs) :
    mapThrowing f (front ++ back) = .ok (ys ++ zs) := by
  induction front generalizing ys with
  | nil =>
    simp only [mapThrowing] at hfront
    injection hfront with hfront
    subst hfront
    simpa using hback
  | cons x rest ih =>
    simp only [mapThrowing] at hfront
    cases hx : f x with
    | error e => simp [hx] at hfront
    | ok y =>
      cases hrest : mapThrowing f rest with
      | error e => simp [hx, hrest] at hfront
      | ok ys' =>
        simp only [hx, hrest] at hfront
        injection hfront with hfront
        subst hfront
        simp [mapThrowing, hx, ih ys' hrest]

/-- C8: for a tournament payload whose `created` and `started` are arrays (an
absent one counting as empty), `/api/tournaments` answers 200 with the summaries,
element by element and in order, of the first 20 elements of `created ++ started`:
first those of `created.slice(0, 20)`, then those of the first `20 - |created|`
started ones, `min 20 (|created| + |started|)` entries in all. -/
theorem tournaments_created_then_started (get : ApiClient) (data : JVal)
    (created started : List JVal)
    (hfetch : (axiosRetry get "/tournament").result = .ok (some ⟨data⟩))
    (hdata : nullish data = false)
    (hcreated : jsOr (prop data "created") (.arr []) = .arr created)
    (hstarted : jsOr (prop data "started") (.arr []) = .arr started)
    (hrecords : ∀ t ∈ (created ++ started).take 20, nullish t = false) :
    ∃ fromCreated fromStarted,
      tournamentsHandler get = ⟨200, .arr (fromCreated ++ fromStarted)⟩ ∧
      (created.take 20).map tournamentSummary = fromCreated.map .ok ∧
      (started.take (20 - created.length)).map tournamentSummary = fromStarted.map .ok ∧
      (fromCreated ++ fromStarted).length = min 20 (created.length + started.length) := by
  have hsplit : (created ++ started).take 20
      = created.take 20 ++ started.take (20 - created.length) := List.take_append_eq_append_take
  rw [hsplit] at hrecords
  obtain ⟨ys, hys, hymap⟩ := mapThrowing_ok tournamentSummary (created.take 20)
    (fun t ht => tournamentSummary_ok (hrecords t (List.mem_append_left _ ht)))
  obtain ⟨zs, hzs, hzmap⟩ := mapThrowing_ok tournamentSummary (started.take (20 - created.length))
    (fun t ht => tournamentSummary_ok (hrecords t (List.mem_append_right _ ht)))
  have hbody : tournamentsBody data = .ok (ys ++ zs) := by
    have hall : allTournaments data = .ok (created ++ started) := by
      simp [allTournaments, getProp, hdata, hcreated, hstarted, spread, bind, Except.bind,
        pure, Except.pure]
    simp only [tournamentsBody, hall, bind, Except.bind, hsplit]
    exact mapThrowing_append _ _ _ _ _ hys hzs
  refine ⟨ys, zs, ?_, hymap, hzmap, ?_⟩
  · simp [tournamentsHandler, hfetch, responseData, hbody, bind, Except.bind]
  · have hy := congrArg List.length hymap
    have hz := congrArg List.length hzmap
    simp only [List.length_map, List.length_take] at hy hz
    rw [List.length_append, ← hy, ← hz]
    omega

theorem tournaments_created_then_started_witness :
    ∃ fromCreated fromStarted,
      tournamentsHandler tournamentsUpstream = ⟨200, .arr (fromCreated ++ fromStarted)⟩ ∧
      (sampleCreated.take 20).map tournamentSummary = fromCreated.map .ok ∧
      (sampleStarted.take (20 - sampleCreated.length)).map tournamentSummary
        = fromStarted.map .ok ∧
      (fromCreated ++ fromStarted).length = min 20 (sampleCreated.length + sampleStarted.length) :=
  tournaments_created_then_started tournamentsUpstream sampleTournaments sampleCreated
    sampleStarted rfl rfl rfl rfl (by decide)

/-! ## Error responses: properties -/

/-- C9: when the upstream fetch of `/api/profile/:username` throws an error whose
`response.status` is 404, the handler answers 404 with body `{error: "User not
found"}`, whatever the error's `code` is, and so neither 500 nor 503. -/
theorem profile_not_found (get : ApiClient) (username : String) (e : JError)
    (hfetch : (axiosRetry get ("/user/" ++ username)).result = .error e)
    (hstatus : optProp e.response "status" = .num 404) :
    profileHandler get username = ⟨404, .obj [("error", .str "User not found")]⟩ ∧
      (profileHandler get username).status ≠ 500 ∧
      (profileHandler get username).status ≠ 503 := by
  have hresp : profileHandler get username = ⟨404, .obj [("error", .str "User not found")]⟩ := by
    simp [profileHandler, hfetch, bind, Except.bind, profileCatch, hstatus, strictEqNum]
  rw [hresp]
  exact ⟨rfl, by decide, by decide⟩

theorem profile_not_found_witness :
    profileHandler alwaysNotFound "nonexistent-user"
        = ⟨404, .obj [("error", .str "User not found")]⟩ ∧
      (profileHandler alwaysNotFound "nonexistent-user").status ≠ 500 ∧
      (profileHandler alwaysNotFound "nonexistent-user").status ≠ 503 :=
  profile_not_found alwaysNotFound "nonexistent-user" notFoundError rfl rfl

/-- A catch block that tests `error.code` as the five handlers do follows the taxonomy. -/
theorem followsTaxonomy_of_codes (e : JError) (text : String) (r : HttpResponse)
    (hr : r =
      if strictEqStr e.code "ETIMEDOUT" || strictEqStr e.code "ECONNABORTED" then
        ⟨503, .obj [("error",
            .str "Lichess API is currently unavailable. Please try again later."),
          ("code", .str "TIMEOUT")]⟩
      else if strictEqStr e.code "ENOTFOUND" || strictEqStr e.code "ECONNREFUSED" then
        ⟨503, .obj [("error",
            .str "Cannot connect to Lichess. Please check your internet connection."),
          ("code", .str "CONNECTION_ERROR")]⟩
      else ⟨500, .obj [("error", .str text)]⟩) :
    FollowsTaxonomy e r := by
  subst hr
  unfold FollowsTaxonomy isTimeout isConnectionFailure
  cases hc : e.code with
  | str code =>
    simp only [strictEqStr]
    by_cases h1 : code = "ETIMEDOUT"
    · subst h1; simp [prop, lookupField, hasField]
    · by_cases h2 : code = "ECONNABORTED"
      · subst h2; simp [prop, lookupField, hasField]
      · by_cases h3 : code = "ENOTFOUND"
        · subst h3; simp [prop, lookupField, hasField]
        · by_cases h4 : code = "ECONNREFUSED"
          · subst h4; simp [prop, lookupField, hasField]
          · simp [h1, h2, h3, h4, prop, lookupField, hasField]
  | _ => simp [strictEqStr, prop, lookupField, hasField]

theorem profilesHandler_of_fetch_error {upstream : Nat → ApiClient} {queryNb queryGameType : JVal}
    {path : String} {e : JError}
    (hpath : leaderboardPath (jsOr queryNb (.num 20)) (jsOr queryGameType (.str "bullet"))
      = .ok path)
    (hfetch : (axiosRetry (upstream 0) path).result = .error e) :
    profilesHandler upstream queryNb queryGameType = profilesCatch e := by
  unfold profilesHandler profilesRun
  cases hgt : toStr (jsOr queryGameType (.str "bullet")) with
  | error err =>
    cases hnb : toStr (jsOr queryNb (.num 20)) <;>
      simp [leaderboardPath, hgt, hnb, bind, Except.bind] at hpath
  | ok gameType =>
    simp only [hpath, hgt]
    simp [hfetch, bind, Except.bind]

theorem profileHandler_of_fetch_error {get : ApiClient} {username : String} {e : JError}
    (hfetch : (axiosRetry get ("/user/" ++ username)).result = .error e) :
    profileHandler get username = profileCatch e := by
  simp [profileHandler, hfetch, bind, Except.bind]

theorem leaderboardHandler_of_fetch_error {get : ApiClient} {paramGameType : String}
    {queryNb : JVal} {path : String} {e : JError}
    (hpath : leaderboardPath (jsOr queryNb (.num 50)) (.str (paramOrBullet paramGameType))
      = .ok path)
    (hfetch : (axiosRetry get path).result = .error e) :
    leaderboardHandler get paramGameType queryNb = leaderboardCatch e := by
  simp [leaderboardHandler, leaderboardRun, hpath, hfetch, bind, Except.bind]

theorem leaderboardsDefaultHandler_of_fetch_error {get : ApiClient} {queryNb : JVal}
    {path : String} {e : JError}
    (hpath : leaderboardPath (jsOr queryNb (.num 50)) (.str "bullet") = .ok path)
    (hfetch : (axiosRetry get path).result = .error e) :
    leaderboardsDefaultHandler get queryNb = leaderboardsDefaultCatch e := by
  simp [leaderboardsDefaultHandler, leaderboardsDefaultRun, hpath, hfetch, bind, Except.bind]

theorem tournamentsHandler_of_fetch_error {get : ApiClient} {e : JError}
    (hfetch : (axiosRetry get "/tournament").result = .error e) :
    tournamentsHandler get = tournamentsCatch e := by
  simp [tournamentsHandler, hfetch, bind, Except.bind]

/-- C10: in each of the five upstream-backed handlers, an error of the initial
upstream fetch that is not a 404 on a named user is answered as the taxonomy says:
503 with code `TIMEOUT` when `error.code` is `ETIMEDOUT` or `ECONNABORTED`, 503 with
code `CONNECTION_ERROR` when it is `ENOTFOUND` or `ECONNREFUSED`, and otherwise 500
with an error string and no code; the body has a code field exactly when the
status is 503. -/
theorem handlers_follow_error_taxonomy :
    (∀ (upstream : Nat → ApiClient) (queryNb queryGameType : JVal) (path : String) (e : JError),
      leaderboardPath (jsOr queryNb (.num 20)) (jsOr queryGameType (.str "bullet")) = .ok path →
      (axiosRetry (upstream 0) path).result = .error e →
      FollowsTaxonomy e (profilesHandler upstream queryNb queryGameType)) ∧
    (∀ (get : ApiClient) (username : String) (e : JError),
      (axiosRetry get ("/user/" ++ username)).result = .error e →
      strictEqNum (optProp e.response "status") 404 = false →
      FollowsTaxonomy e (profileHandler get username)) ∧
    (∀ (get : ApiClient) (paramGameType : String) (queryNb : JVal) (path : String) (e : JError),
      leaderboardPath (jsOr queryNb (.num 50)) (.str (paramOrBullet paramGameType)) = .ok path →
      (axiosRetry get path).result = .error e →
      FollowsTaxonomy e (leaderboardHandler get paramGameType queryNb)) ∧
    (∀ (get : ApiClient) (queryNb : JVal) (path : String) (e : JError),
      leaderboardPath (jsOr queryNb (.num 50)) (.str "bullet") = .ok path →
      (axiosRetry get path).result = .error e →
      FollowsTaxonomy e (leaderboardsDefaultHandler get queryNb)) ∧
    (∀ (get : ApiClient) (e : JError),
      (axiosRetry get "/tournament").result = .error e →
      FollowsTaxonomy e (tournamentsHandler get)) := by
  refine ⟨?_, ?_, ?_, ?_, ?_⟩
  · intro upstream queryNb queryGameType path e hpath hfetch
    rw [profilesHandler_of_fetch_error hpath hfetch]
    exact followsTaxonomy_of_codes e "Failed to fetch profiles" _ rfl
  · intro get username e hfetch hstatus
    rw [profileHandler_of_fetch_error hfetch]
    refine followsTaxonomy_of_codes e "Failed to fetch user profile" _ ?_
    simp only [profileCatch, hstatus]
    rfl
  · intro get paramGameType queryNb path e hpath hfetch
    rw [leaderboardHandler_of_fetch_error hpath hfetch]
    exact followsTaxonomy_of_codes e "Failed to fetch leaderboards" _ rfl
  · intro get queryNb path e hpath hfetch
    rw [leaderboardsDefaultHandler_of_fetch_error hpath hfetch]
    exact followsTaxonomy_of_codes e "Failed to fetch leaderboards" _ rfl
  · intro get e hfetch
    rw [tournamentsHandler_of_fetch_error hfetch]
    exact followsTaxonomy_of_codes e "Failed to fetch tournaments" _ rfl

theorem handlers_follow_error_taxonomy_witness :
    FollowsTaxonomy timeoutError (profilesHandler (fun _ => alwaysTimeout) .undefined .undefined) ∧
    FollowsTaxonomy refusedError (profileHandler alwaysRefused "DrNykterstein") ∧
    FollowsTaxonomy notFoundError (leaderboardHandler alwaysNotFound "blitz" (.str "5")) ∧
    FollowsTaxonomy ⟨.undefined, .undefined, "socket hang up"⟩
      (leaderboardsDefaultHandler alwaysBroken .undefined) ∧
    FollowsTaxonomy refusedError (tournamentsHandler alwaysRefused) :=
  ⟨handlers_follow_error_taxonomy.1 (fun _ => alwaysTimeout) .undefined .undefined
      "/player/top/20/bullet" timeoutError rfl rfl,
    handlers_follow_error_taxonomy.2.1 alwaysRefused "DrNykterstein" refusedError rfl rfl,
    handlers_follow_error_taxonomy.2.2.1 alwaysNotFound "blitz" (.str "5")
      "/player/top/5/blitz" notFoundError rfl rfl,
    handlers_follow_error_taxonomy.2.2.2.1 alwaysBroken .undefined
      "/player/top/50/bullet" _ rfl rfl,
    handlers_follow_error_taxonomy.2.2.2.2 alwaysRefused refusedError rfl⟩


/-! ## `/api/leaderboards/:gameType`: properties -/

theorem nullish_of_prop_arr {data : JVal} {k : String} {items : List JVal}
    (h : prop data k = .arr items) : nullish data = false := by
  cases data <;> first | rfl | simp [prop] at h

/-- The leaderboard entry built from a record that is neither `null` nor `undefined`. -/
theorem leaderboardEntry_ok (gameType : String) {user : JVal} (h : nullish user = false) :
    leaderboardEntry gameType user = .ok (.obj [
      ("username", prop user "username"),
      ("title", jsOr (prop user "title") .null),
      ("rating", jsOr (perfRating (prop user "perfs") gameType) (prop user "rating")),
      ("progress", jsOr (prop user "progress") (.num 0)),
      ("online", jsOr (prop user "online") (.bool false)),
      ("patron", jsOr (prop user "patron") (.bool false))]) := by
  simp [leaderboardEntry, getProp, h, bind, Except.bind, pure, Except.pure]

/-- With a body holding an array `users` of records, the leaderboard response is 200
with the entries of the records, one for one and in order. -/
theorem leaderboard_entries {get : ApiClient} {paramGameType : String} {queryNb : JVal}
    {path : String} {data : JVal} {users : List JVal}
    (hpath : leaderboardPath (jsOr queryNb (.num 50)) (.str (paramOrBullet paramGameType))
      = .ok path)
    (hfetch : (axiosRetry get path).result = .ok (some ⟨data⟩))
    (husers : prop data "users" = .arr users)
    (hrecords : ∀ u ∈ users, nullish u = false) :
    ∃ entries, leaderboardHandler get paramGameType queryNb = ⟨200, .arr entries⟩ ∧
      users.map (leaderboardEntry (paramOrBullet paramGameType)) = entries.map .ok := by
  obtain ⟨entries, hmap, horder⟩ :=
    mapThrowing_ok (leaderboardEntry (paramOrBullet paramGameType)) users
      (fun u hu => ⟨_, leaderboardEntry_ok _ (hrecords u hu)⟩)
  refine ⟨entries, ?_, horder⟩
  have hdata := nullish_of_prop_arr husers
  simp [leaderboardHandler, leaderboardRun, hpath, hfetch, responseData, mapUsers, getProp,
    hdata, husers, hmap, bind, Except.bind]

/-- C11 fails as stated: a player whose `perfs.blitz.rating` is the number 0 gets
an entry whose rating is not 0 but the record's top-level `rating`, here absent. -/
theorem leaderboard_zero_rating_replaced :
    ∃ entry, leaderboardHandler zeroRatedUpstream "blitz" (.str "5") = ⟨200, .arr [entry]⟩ ∧
      perfRating (prop (blitzUser "zero" 0) "perfs") "blitz" = .num 0 ∧
      prop entry "rating" = .undefined :=
  ⟨_, rfl, rfl, rfl⟩

/-- C11, as the code has it: for a leaderboard record whose
`perfs[gameType].rating` is a number other than 0, the entry at its position in the
`/api/leaderboards/:gameType` response has that rating; a rating of 0 is replaced
by the record's top-level `rating`. -/
theorem leaderboard_rating_from_perfs (get : ApiClient) (paramGameType : String)
    (queryNb : JVal) (path : String) (data : JVal) (users : List JVal)
    (hpath : leaderboardPath (jsOr queryNb (.num 50)) (.str (paramOrBullet paramGameType))
      = .ok path)
    (hfetch : (axiosRetry get path).result = .ok (some ⟨data⟩))
    (husers : prop data "users" = .arr users)
    (hrecords : ∀ u ∈ users, nullish u = false) :
    ∃ entries, leaderboardHandler get paramGameType queryNb = ⟨200, .arr entries⟩ ∧
      entries.length = users.length ∧
      ∀ (i : Nat) user n, users[i]? = some user →
        perfRating (prop user "perfs") (paramOrBullet paramGameType) = .num n →
        ∃ entry, entries[i]? = some entry ∧
          (n ≠ 0 → prop entry "rating" = .num n) ∧
          (n = 0 → prop entry "rating" = prop user "rating") := by
  obtain ⟨entries, hresp, horder⟩ := leaderboard_entries hpath hfetch husers hrecords
  refine ⟨entries, hresp, ?_, ?_⟩
  · have hlen := congrArg List.length horder
    simpa using hlen.symm
  · intro i user n huser hrating
    have hget := congrArg (fun l => l[i]?) horder
    simp only [List.getElem?_map, huser, Option.map_some'] at hget
    cases hentry : entries[i]? with
    | none => simp [hentry] at hget
    | some entry =>
      rw [hentry, leaderboardEntry_ok _ (hrecords user (List.getElem?_mem huser))] at hget
      simp only [Option.map_some', Option.some.injEq, Except.ok.injEq] at hget
      subst hget
      refine ⟨_, rfl, ?_, ?_⟩
      · intro hn
        show jsOr (perfRating (prop user "perfs") (paramOrBullet paramGameType))
          (prop user "rating") = .num n
        rw [hrating]
        simp [jsOr, truthy, hn]
      · intro hn
        show jsOr (perfRating (prop user "perfs") (paramOrBullet paramGameType))
          (prop user "rating") = prop user "rating"
        rw [hrating, hn]
        simp [jsOr, truthy]

theorem leaderboard_rating_from_perfs_witness :
    ∃ entries, leaderboardHandler blitzUpstream "blitz" (.str "5") = ⟨200, .arr entries⟩ ∧
      entries.length = blitzUsers.length ∧
      ∀ (i : Nat) user n, blitzUsers[i]? = some user →
        perfRating (prop user "perfs") (paramOrBullet "blitz") = .num n →
        ∃ entry, entries[i]? = some entry ∧
          (n ≠ 0 → prop entry "rating" = .num n) ∧
          (n = 0 → prop entry "rating" = prop user "rating") :=
  leaderboard_rating_from_perfs blitzUpstream "blitz" (.str "5") "/player/top/5/blitz"
    (.obj [("users", .arr blitzUsers)]) blitzUsers rfl rfl rfl (by decide)

/-- C12 fails as stated: asked for 2 players, an upstream that supplies 5 users
gets all 5 into the response. -/
theorem leaderboard_not_truncated :
    requestedUrls (leaderboardRun blitzUpstream "blitz" (.str "2")).events
        = ["/player/top/2/blitz"] ∧
      ∃ entries, leaderboardHandler blitzUpstream "blitz" (.str "2") = ⟨200, .arr entries⟩ ∧
        entries.length = 5 :=
  ⟨rfl, _, rfl, rfl⟩

/-- C12, as the code has it: the `/api/leaderboards/:gameType` response holds exactly
one entry per user of the upstream users list, in the order upstream supplied them,
whatever count was requested; so it holds at most `n` entries whenever upstream
supplies at most `n` users. -/
theorem leaderboard_one_entry_per_user (get : ApiClient) (paramGameType : String)
    (queryNb : JVal) (path : String) (data : JVal) (users : List JVal)
    (hpath : leaderboardPath (jsOr queryNb (.num 50)) (.str (paramOrBullet paramGameType))
      = .ok path)
    (hfetch : (axiosRetry get path).result = .ok (some ⟨data⟩))
    (husers : prop data "users" = .arr users)
    (hrecords : ∀ u ∈ users, nullish u = false) :
    ∃ entries, leaderboardHandler get paramGameType queryNb = ⟨200, .arr entries⟩ ∧
      entries.length = users.length ∧
      users.map (leaderboardEntry (paramOrBullet paramGameType)) = entries.map .ok ∧
      ∀ n, users.length ≤ n → entries.length ≤ n := by
  obtain ⟨entries, hresp, horder⟩ := leaderboard_entries hpath hfetch husers hrecords
  have hlen : entries.length = users.length := by
    have h := congrArg List.length horder
    simpa using h.symm
  exact ⟨entries, hresp, hlen, horder, fun n hn => hlen ▸ hn⟩

theorem leaderboard_one_entry_per_user_witness :
    ∃ entries, leaderboardHandler blitzUpstream "blitz" (.str "5") = ⟨200, .arr entries⟩ ∧
      entries.length = blitzUsers.length ∧
      blitzUsers.map (leaderboardEntry (paramOrBullet "blitz")) = entries.map .ok ∧
      ∀ n, blitzUsers.length ≤ n → entries.length ≤ n :=
  leaderboard_one_entry_per_user blitzUpstream "blitz" (.str "5") "/player/top/5/blitz"
    (.obj [("users", .arr blitzUsers)]) blitzUsers rfl rfl rfl (by decide)

/-- C13 fails as stated: for an upstream 404 the profile handler answers 404 and the
leaderboard handler answers 500. -/
theorem leaderboard_404_is_500 :
    (axiosRetry alwaysNotFound "/user/nobody").result = .error notFoundError ∧
      (axiosRetry alwaysNotFound "/player/top/50/blitz").result = .error notFoundError ∧
      (profileHandler alwaysNotFound "nobody").status = 404 ∧
      (leaderboardHandler alwaysNotFound "blitz" .undefined).status = 500 :=
  ⟨rfl, rfl, rfl, rfl⟩

theorem status_of_followsTaxonomy {e : JError} {r : HttpResponse} (h : FollowsTaxonomy e r) :
    r.status = (if isTimeout e || isConnectionFailure e then 503 else 500) := by
  obtain ⟨ht, hc, ho, _⟩ := h
  cases h1 : isTimeout e with
  | true => simp [ht h1]
  | false =>
    cases h2 : isConnectionFailure e with
    | true => simp [hc h2]
    | false => simp [(ho h1 h2).1]

/-- C13, as the code has it: when the upstream fetch throws an error whose
`response.status` is not 404, `/api/leaderboards/:gameType` and
`/api/profile/:username` answer with the same status and the same code field; for
a 404 the profile handler answers 404 while the leaderboard handler still
classifies the error by `error.code` (503 or 500). -/
theorem leaderboard_profile_taxonomy (getProfile getLeaderboard : ApiClient)
    (username paramGameType : String) (queryNb : JVal) (path : String) (e : JError)
    (hprofile : (axiosRetry getProfile ("/user/" ++ username)).result = .error e)
    (hpath : leaderboardPath (jsOr queryNb (.num 50)) (.str (paramOrBullet paramGameType))
      = .ok path)
    (hleaderboard : (axiosRetry getLeaderboard path).result = .error e) :
    (strictEqNum (optProp e.response "status") 404 = false →
      (profileHandler getProfile username).status
        = (leaderboardHandler getLeaderboard paramGameType queryNb).status ∧
      prop (profileHandler getProfile username).body "code"
        = prop (leaderboardHandler getLeaderboard paramGameType queryNb).body "code") ∧
    (strictEqNum (optProp e.response "status") 404 = true →
      (profileHandler getProfile username).status = 404 ∧
      (leaderboardHandler getLeaderboard paramGameType queryNb).status ≠ 404 ∧
      FollowsTaxonomy e (leaderboardHandler getLeaderboard paramGameType queryNb)) := by
  rw [profileHandler_of_fetch_error hprofile, leaderboardHandler_of_fetch_error hpath hleaderboard]
  have hL : FollowsTaxonomy e (leaderboardCatch e) :=
    followsTaxonomy_of_codes e "Failed to fetch leaderboards" _ rfl
  refine ⟨?_, ?_⟩
  · intro h404
    simp only [profileCatch, leaderboardCatch, h404]
    cases hc1 : (strictEqStr e.code "ETIMEDOUT" || strictEqStr e.code "ECONNABORTED") with
    | true => exact ⟨rfl, rfl⟩
    | false =>
      cases hc2 : (strictEqStr e.code "ENOTFOUND" || strictEqStr e.code "ECONNREFUSED") with
      | true => exact ⟨rfl, rfl⟩
      | false => exact ⟨rfl, rfl⟩
  · intro h404
    refine ⟨by simp [profileCatch, h404], ?_, hL⟩
    rw [status_of_followsTaxonomy hL]
    split <;> decide

theorem leaderboard_profile_taxonomy_witness :
    (strictEqNum (optProp refusedError.response "status") 404 = false →
      (profileHandler alwaysRefused "DrNykterstein").status
        = (leaderboardHandler alwaysRefused "blitz" .undefined).status ∧
      prop (profileHandler alwaysRefused "DrNykterstein").body "code"
        = prop (leaderboardHandler alwaysRefused "blitz" .undefined).body "code") ∧
    (strictEqNum (optProp refusedError.response "status") 404 = true →
      (profileHandler alwaysRefused "DrNykterstein").status = 404 ∧
      (leaderboardHandler alwaysRefused "blitz" .undefined).status ≠ 404 ∧
      FollowsTaxonomy refusedError (leaderboardHandler alwaysRefused "blitz" .undefined)) :=
  leaderboard_profile_taxonomy alwaysRefused alwaysRefused "DrNykterstein" "blitz" .undefined
    "/player/top/50/blitz" refusedError rfl rfl rfl

/-- C14: for every `nb` query value and every upstream, `/api/leaderboards` does what
`/api/leaderboards/:gameType` does with `gameType = "bullet"` and the same `nb`:
the same upstream events (the same path, requested as many times) and the same
response, status and body, on success and on failure. -/
theorem leaderboards_default_is_bullet (get : ApiClient) (queryNb : JVal) :
    leaderboardsDefaultRun get queryNb = leaderboardRun get "bullet" queryNb ∧
      requestedUrls (leaderboardsDefaultRun get queryNb).events
        = requestedUrls (leaderboardRun get "bullet" queryNb).events ∧
      leaderboardsDefaultHandler get queryNb = leaderboardHandler get "bullet" queryNb := by
  have hrun : leaderboardsDefaultRun get queryNb = leaderboardRun get "bullet" queryNb := by
    have hcatch : leaderboardsDefaultCatch = leaderboardCatch := rfl
    have hparam : paramOrBullet "bullet" = "bullet" := by decide
    simp only [leaderboardsDefaultRun, leaderboardRun, hcatch, hparam]
  exact ⟨hrun, by rw [hrun], by simp only [leaderboardsDefaultHandler, leaderboardHandler, hrun]⟩


/-! ## Profile building and requested paths: properties -/

/-- C15: for an upstream user payload `data`, `/api/profile/:username` answers 200
with `username = data.username`, `bio = data.profile?.bio || "No bio available"`,
`gamesPlayed = data.count?.all || 0`, `ratings = data.perfs || {}`,
`profileImage = data.profile?.avatar || null`, `title = data.title || null`,
`online = data.online || false`, `country = data.profile?.country || null`; and the
success branch of `/api/profiles` resolves with the same object for the same payload. -/
theorem profile_fields_with_fallbacks (get getPlayer : ApiClient) (username gameType : String)
    (user : JVal) (name : String) (data : JVal)
    (hdata : nullish data = false)
    (hfetch : (axiosRetry get ("/user/" ++ username)).result = .ok (some ⟨data⟩))
    (hname : usernameText user = .ok name)
    (hplayer : (axiosRetry getPlayer ("/user/" ++ name)).result = .ok (some ⟨data⟩)) :
    profileHandler get username = ⟨200, .obj [
      ("username", prop data "username"),
      ("bio", jsOr (optProp (prop data "profile") "bio") (.str "No bio available")),
      ("gamesPlayed", jsOr (optProp (prop data "count") "all") (.num 0)),
      ("ratings", jsOr (prop data "perfs") (.obj [])),
      ("profileImage", jsOr (optProp (prop data "profile") "avatar") .null),
      ("title", jsOr (prop data "title") .null),
      ("online", jsOr (prop data "online") (.bool false)),
      ("country", jsOr (optProp (prop data "profile") "country") .null)]⟩ ∧
    (profileTask getPlayer gameType user).result
      = .ok (profileHandler get username).body := by
  have hprofile : profileHandler get username = ⟨200, .obj [
      ("username", prop data "username"),
      ("bio", jsOr (optProp (prop data "profile") "bio") (.str "No bio available")),
      ("gamesPlayed", jsOr (optProp (prop data "count") "all") (.num 0)),
      ("ratings", jsOr (prop data "perfs") (.obj [])),
      ("profileImage", jsOr (optProp (prop data "profile") "avatar") .null),
      ("title", jsOr (prop data "title") .null),
      ("online", jsOr (prop data "online") (.bool false)),
      ("country", jsOr (optProp (prop data "profile") "country") .null)]⟩ := by
    simp [profileHandler, hfetch, responseData, buildProfile_ok hdata, bind, Except.bind]
  refine ⟨hprofile, ?_⟩
  rw [profileTask_of_fetch_ok _ _ hname hplayer, hdata, hprofile]
  exact buildProfile_ok hdata

theorem profile_fields_with_fallbacks_witness :
    profileHandler payloadUpstream "p01" = ⟨200, .obj [
      ("username", .str "p01"),
      ("bio", .str "Bullet addict"),
      ("gamesPlayed", .num 4200),
      ("ratings", .obj [("bullet", .obj [("rating", .num 3100), ("games", .num 900)])]),
      ("profileImage", .null),
      ("title", .null),
      ("online", .bool true),
      ("country", .null)]⟩ ∧
    (profileTask payloadUpstream "bullet" (sampleUser "p01")).result
      = .ok (profileHandler payloadUpstream "p01").body :=
  profile_fields_with_fallbacks payloadUpstream payloadUpstream "p01" "bullet"
    (sampleUser "p01") "p01" samplePayload rfl rfl rfl rfl

theorem requestedUrls_append (xs ys : List Event) :
    requestedUrls (xs ++ ys) = requestedUrls xs ++ requestedUrls ys := by
  induction xs with
  | nil => rfl
  | cons x rest ih => cases x <;> simp [requestedUrls, ih]

/-- The first upstream request of `axiosRetry(url)` is for `url`, and so is every
later one. -/
theorem axiosRetry_requestedUrls (get : ApiClient) (url : String) :
    (requestedUrls (axiosRetry get url).events).head? = some url ∧
      ∀ u ∈ requestedUrls (axiosRetry get url).events, u = url := by
  rw [axiosRetry_unfold]
  cases get url 0 <;> cases get url 1 <;> cases get url 2 <;> simp [requestedUrls]

theorem head?_requestedUrls_append {xs : List Event} {url : String} (ys : List Event)
    (h : (requestedUrls xs).head? = some url) :
    (requestedUrls (xs ++ ys)).head? = some url := by
  rw [requestedUrls_append]
  cases hx : requestedUrls xs with
  | nil => simp [hx] at h
  | cons u rest => simpa [hx] using h

/-- The first upstream request of `/api/profiles` is the leaderboard path. -/
theorem profilesRun_first_request (upstream : Nat → ApiClient) {queryNb queryGameType : JVal}
    {nbText gameType : String}
    (hnb : toStr (jsOr queryNb (.num 20)) = .ok nbText)
    (hgt : toStr (jsOr queryGameType (.str "bullet")) = .ok gameType) :
    (requestedUrls (profilesRun upstream queryNb queryGameType).events).head?
      = some ("/player/top/" ++ nbText ++ "/" ++ gameType) := by
  have hhead := (axiosRetry_requestedUrls (upstream 0)
    ("/player/top/" ++ nbText ++ "/" ++ gameType)).1
  simp only [profilesRun, leaderboardPath, hnb, hgt, bind, Except.bind, pure, Except.pure]
  split
  · exact hhead
  · split
    · exact hhead
    · split
      · exact head?_requestedUrls_append _ hhead
      · exact hhead

/-- The upstream events of `/api/leaderboards/:gameType` are those of one
`axiosRetry` call on the leaderboard path. -/
theorem leaderboardRun_events (get : ApiClient) {paramGameType : String} {queryNb : JVal}
    {path : String}
    (hpath : leaderboardPath (jsOr queryNb (.num 50)) (.str (paramOrBullet paramGameType))
      = .ok path) :
    (leaderboardRun get paramGameType queryNb).events = (axiosRetry get path).events := by
  simp only [leaderboardRun, hpath]
  split <;> rfl

theorem jsOr_str {text : String} (fallback : JVal) (h : text ≠ "") :
    jsOr (.str text) fallback = .str text := by
  simp [jsOr, truthy, h]

theorem paramOrBullet_of_ne {paramGameType : String} (h : paramGameType ≠ "") :
    paramOrBullet paramGameType = paramGameType := by
  simp [paramOrBullet, h]

theorem leaderboardPath_str (nb gameType : String) :
    leaderboardPath (.str nb) (.str gameType) = .ok ("/player/top/" ++ nb ++ "/" ++ gameType) :=
  rfl

/-- C16: the first upstream request of the three leaderboard-backed handlers is
`/player/top/<nb>/<gameType>`: with `nb` absent it is 20 for `/api/profiles` and 50
for both leaderboard routes, with `gameType` absent `/api/profiles` uses "bullet",
and an `nb` given as a non-empty string is placed in the path as it is. -/
theorem requested_leaderboard_path :
    (∀ upstream : Nat → ApiClient,
      (requestedUrls (profilesRun upstream .undefined .undefined).events).head?
        = some "/player/top/20/bullet") ∧
    (∀ (get : ApiClient) (paramGameType : String), paramGameType ≠ "" →
      (requestedUrls (leaderboardRun get paramGameType .undefined).events).head?
        = some ("/player/top/50/" ++ paramGameType)) ∧
    (∀ get : ApiClient,
      (requestedUrls (leaderboardsDefaultRun get .undefined).events).head?
        = some "/player/top/50/bullet") ∧
    (∀ (upstream : Nat → ApiClient) (nb : String), nb ≠ "" →
      (requestedUrls (profilesRun upstream (.str nb) .undefined).events).head?
        = some ("/player/top/" ++ nb ++ "/" ++ "bullet")) ∧
    (∀ (upstream : Nat → ApiClient) (nb gameType : String), nb ≠ "" → gameType ≠ "" →
      (requestedUrls (profilesRun upstream (.str nb) (.str gameType)).events).head?
        = some ("/player/top/" ++ nb ++ "/" ++ gameType)) ∧
    (∀ (get : ApiClient) (paramGameType nb : String), paramGameType ≠ "" → nb ≠ "" →
      (requestedUrls (leaderboardRun get paramGameType (.str nb)).events).head?
        = some ("/player/top/" ++ nb ++ "/" ++ paramGameType)) ∧
    (∀ (get : ApiClient) (nb : String), nb ≠ "" →
      (requestedUrls (leaderboardsDefaultRun get (.str nb)).events).head?
        = some ("/player/top/" ++ nb ++ "/" ++ "bullet")) ∧
    (∀ (upstream : Nat → ApiClient) (gameType : String), gameType ≠ "" →
      (requestedUrls (profilesRun upstream .undefined (.str gameType)).events).head?
        = some ("/player/top/20/" ++ gameType)) := by
  have hbullet : ∀ get queryNb, leaderboardsDefaultRun get queryNb
      = leaderboardRun get "bullet" queryNb := by
    intro get queryNb
    have hcatch : leaderboardsDefaultCatch = leaderboardCatch := rfl
    have hparam : paramOrBullet "bullet" = "bullet" := by decide
    simp only [leaderboardsDefaultRun, leaderboardRun, hcatch, hparam]
  have hfifty : ∀ gameType : String,
      "/player/top/" ++ "50" ++ "/" ++ gameType = "/player/top/50/" ++ gameType := by
    intro gameType
    have h : "/player/top/" ++ "50" ++ "/" = "/player/top/50/" := by decide
    rw [h]
  have htwenty : ∀ gameType : String,
      "/player/top/" ++ "20" ++ "/" ++ gameType = "/player/top/20/" ++ gameType := by
    intro gameType
    have h : "/player/top/" ++ "20" ++ "/" = "/player/top/20/" := by decide
    rw [h]
  refine ⟨?_, ?_, ?_, ?_, ?_, ?_, ?_, ?_⟩
  · intro upstream
    exact @profilesRun_first_request upstream .undefined .undefined "20" "bullet" rfl rfl
  · intro get paramGameType hparam
    have hpath : leaderboardPath (jsOr .undefined (.num 50))
        (.str (paramOrBullet paramGameType)) = .ok ("/player/top/50/" ++ paramGameType) := by
      rw [paramOrBullet_of_ne hparam, ← hfifty]
      rfl
    rw [leaderboardRun_events get hpath]
    exact (axiosRetry_requestedUrls get _).1
  · intro get
    have hpath : leaderboardPath (jsOr .undefined (.num 50)) (.str (paramOrBullet "bullet"))
        = .ok "/player/top/50/bullet" := rfl
    rw [hbullet, leaderboardRun_events get hpath]
    exact (axiosRetry_requestedUrls get _).1
  · intro upstream nb hnb
    exact profilesRun_first_request upstream (by rw [jsOr_str _ hnb]; rfl) rfl
  · intro upstream nb gameType hnb hgt
    exact profilesRun_first_request upstream (by rw [jsOr_str _ hnb]; rfl)
      (by rw [jsOr_str _ hgt]; rfl)
  · intro get paramGameType nb hparam hnb
    have hpath : leaderboardPath (jsOr (.str nb) (.num 50))
        (.str (paramOrBullet paramGameType))
        = .ok ("/player/top/" ++ nb ++ "/" ++ paramGameType) := by
      rw [paramOrBullet_of_ne hparam, jsOr_str _ hnb]
      rfl
    rw [leaderboardRun_events get hpath]
    exact (axiosRetry_requestedUrls get _).1
  · intro get nb hnb
    have hpath : leaderboardPath (jsOr (.str nb) (.num 50)) (.str (paramOrBullet "bullet"))
        = .ok ("/player/top/" ++ nb ++ "/" ++ "bullet") := by
      rw [jsOr_str _ hnb]
      rfl
    rw [hbullet, leaderboardRun_events get hpath]
    exact (axiosRetry_requestedUrls get _).1
  · intro upstream gameType hgt
    rw [← htwenty]
    exact @profilesRun_first_request upstream .undefined (.str gameType) "20" gameType rfl
      (by rw [jsOr_str _ hgt]; rfl)

theorem requested_leaderboard_path_witness :
    (requestedUrls (leaderboardRun blitzUpstream "blitz" .undefined).events).head?
        = some ("/player/top/50/" ++ "blitz") ∧
      (requestedUrls (profilesRun sampleUpstream (.str "abc") (.str "rapid")).events).head?
        = some ("/player/top/" ++ "abc" ++ "/" ++ "rapid") ∧
      (requestedUrls (leaderboardRun blitzUpstream "blitz" (.str "-7")).events).head?
        = some ("/player/top/" ++ "-7" ++ "/" ++ "blitz") ∧
      (requestedUrls (leaderboardsDefaultRun blitzUpstream (.str "1e9")).events).head?
        = some ("/player/top/" ++ "1e9" ++ "/" ++ "bullet") ∧
      (requestedUrls (profilesRun sampleUpstream .undefined (.str "blitz")).events).head?
        = some ("/player/top/20/" ++ "blitz") :=
  ⟨requested_leaderboard_path.2.1 blitzUpstream "blitz" (by decide),
    requested_leaderboard_path.2.2.2.2.1 sampleUpstream "abc" "rapid" (by decide) (by decide),
    requested_leaderboard_path.2.2.2.2.2.1 blitzUpstream "blitz" "-7" (by decide) (by decide),
    requested_leaderboard_path.2.2.2.2.2.2.1 blitzUpstream "1e9" (by decide),
    requested_leaderboard_path.2.2.2.2.2.2.2 sampleUpstream "blitz" (by decide)⟩

/-! ## Attempts and waits: properties -/

/-- C17: when the first success of `axiosRetry` (default `retries = 2`) is the attempt
with index `k` (attempt `k + 1` of 3), it returns that attempt's response, makes
exactly `k + 1` attempts, the last event being the successful one, and waits
exactly `k` times, each time 1000 ms; when all 3 attempts fail it waits exactly
twice, 1000 ms each, and its last event is the failed third attempt. -/
theorem axiosRetry_attempts_and_waits (get : ApiClient) (url : String) :
    (∀ (k : Nat) (r : Response), k < 3 → (∀ j, j < k → ∃ e, get url j = .error e) →
      get url k = .ok r →
      (axiosRetry get url).result = .ok (some r) ∧
      attempts (axiosRetry get url).events = k + 1 ∧
      waits (axiosRetry get url).events = List.replicate k 1000 ∧
      (requestedUrls (axiosRetry get url).events).length = k + 1 ∧
      ∃ before, (axiosRetry get url).events = before ++ [.get url]) ∧
    ((∀ j, j < 3 → ∃ e, get url j = .error e) →
      attempts (axiosRetry get url).events = 3 ∧
      waits (axiosRetry get url).events = [1000, 1000] ∧
      (axiosRetry get url).events
        = [.get url, .sleep 1000, .get url, .sleep 1000, .get url]) := by
  refine ⟨?_, ?_⟩
  · intro k r hk hfail hok
    match k, hk with
    | 0, _ =>
      have hrun : axiosRetry get url = ⟨.ok (some r), [.get url]⟩ := by
        rw [axiosRetry_unfold]
        simp only [hok]
      rw [hrun]
      exact ⟨rfl, rfl, rfl, rfl, [], rfl⟩
    | 1, _ =>
      obtain ⟨e0, h0⟩ := hfail 0 (by omega)
      have hrun : axiosRetry get url
          = ⟨.ok (some r), [.get url, .sleep 1000, .get url]⟩ := by
        rw [axiosRetry_unfold]
        simp only [h0, hok]
      rw [hrun]
      exact ⟨rfl, rfl, rfl, rfl, [.get url, .sleep 1000], rfl⟩
    | 2, _ =>
      obtain ⟨e0, h0⟩ := hfail 0 (by omega)
      obtain ⟨e1, h1⟩ := hfail 1 (by omega)
      have hrun : axiosRetry get url
          = ⟨.ok (some r), [.get url, .sleep 1000, .get url, .sleep 1000, .get url]⟩ := by
        rw [axiosRetry_unfold]
        simp only [h0, h1, hok]
      rw [hrun]
      exact ⟨rfl, rfl, rfl, rfl, [.get url, .sleep 1000, .get url, .sleep 1000], rfl⟩
  · intro hfail
    obtain ⟨e0, h0⟩ := hfail 0 (by omega)
    obtain ⟨e1, h1⟩ := hfail 1 (by omega)
    obtain ⟨e2, h2⟩ := hfail 2 (by omega)
    have hrun : axiosRetry get url
        = ⟨.error e2, [.get url, .sleep 1000, .get url, .sleep 1000, .get url]⟩ := by
      rw [axiosRetry_unfold]
      simp only [h0, h1, h2]
    rw [hrun]
    exact ⟨rfl, rfl, rfl⟩

theorem axiosRetry_attempts_and_waits_witness :
    (axiosRetry thirdTimeLucky "/user/p01").result = .ok (some ⟨samplePayload⟩) ∧
      attempts (axiosRetry thirdTimeLucky "/user/p01").events = 2 + 1 ∧
      waits (axiosRetry thirdTimeLucky "/user/p01").events = List.replicate 2 1000 ∧
      (requestedUrls (axiosRetry thirdTimeLucky "/user/p01").events).length = 2 + 1 ∧
      ∃ before, (axiosRetry thirdTimeLucky "/user/p01").events
        = before ++ [.get "/user/p01"] :=
  (axiosRetry_attempts_and_waits thirdTimeLucky "/user/p01").1 2 ⟨samplePayload⟩ (by decide)
    (fun j hj => match j, hj with
      | 0, _ => ⟨_, rfl⟩
      | 1, _ => ⟨_, rfl⟩)
    rfl

theorem attempts_append (xs ys : List Event) :
    attempts (xs ++ ys) = attempts xs + attempts ys := by
  induction xs with
  | nil => simp [attempts]
  | cons x rest ih =>
    cases x with
    | get url =>
      show attempts (rest ++ ys) + 1 = attempts rest + 1 + attempts ys
      omega
    | sleep ms => exact ih

/-- One call of `axiosRetry` with the default `retries = 2` makes at most 3 attempts. -/
theorem axiosRetry_attempts_le (get : ApiClient) (url : String) :
    attempts (axiosRetry get url).events ≤ 3 := by
  rw [axiosRetry_unfold]
  cases get url 0 <;> cases get url 1 <;> cases get url 2 <;> simp [attempts]

/-- One per-player callback makes at most 3 attempts. -/
theorem profileTask_attempts_le (get : ApiClient) (gameType : String) (user : JVal) :
    attempts (profileTask get gameType user).events ≤ 3 := by
  simp only [profileTask]
  split
  · simp [attempts]
  · split <;> exact axiosRetry_attempts_le _ _

theorem profileTasks_attempts_le (upstream : Nat → ApiClient) (gameType : String)
    (users : List JVal) :
    ∀ index, ∀ task ∈ profileTasks upstream gameType index users, attempts task.events ≤ 3 := by
  induction users with
  | nil => intro index task h; simp [profileTasks] at h
  | cons u rest ih =>
    intro index task h
    simp only [profileTasks, List.mem_cons] at h
    rcases h with h | h
    · rw [h]; exact profileTask_attempts_le _ _ _
    · exact ih _ task h

theorem taskEvents_attempts_le (tasks : List (Run (Except JError JVal)))
    (h : ∀ task ∈ tasks, attempts task.events ≤ 3) :
    attempts (taskEvents tasks) ≤ 3 * tasks.length := by
  induction tasks with
  | nil => simp [taskEvents, attempts]
  | cons t rest ih =>
    have ht := h t (List.mem_cons_self _ _)
    have hrest := ih (fun task hm => h task (List.mem_cons_of_mem _ hm))
    simp only [taskEvents, attempts_append, List.length_cons]
    omega

theorem result_of_responseData {result : Except JError (Option Response)} {data : JVal}
    (h : result >>= responseData = .ok data) : result = .ok (some ⟨data⟩) := by
  cases result with
  | error e => simp [bind, Except.bind] at h
  | ok response =>
    cases response with
    | none => simp [bind, Except.bind, responseData] at h
    | some r =>
      simp only [bind, Except.bind, responseData, Except.ok.injEq] at h
      rw [← h]

/-- The upstream events of one `/api/profiles` request: none when the path cannot be
printed; otherwise those of the leaderboard fetch, followed, when its body holds an
array `users`, by those of the callbacks of the first 15 users. -/
theorem profilesRun_events_cases (upstream : Nat → ApiClient) (queryNb queryGameType : JVal) :
    (profilesRun upstream queryNb queryGameType).events = [] ∨
    ∃ path, leaderboardPath (jsOr queryNb (.num 20)) (jsOr queryGameType (.str "bullet"))
        = .ok path ∧
      ((profilesRun upstream queryNb queryGameType).events
          = (axiosRetry (upstream 0) path).events ∨
        ∃ gameType data users,
          toStr (jsOr queryGameType (.str "bullet")) = .ok gameType ∧
          (axiosRetry (upstream 0) path).result = .ok (some ⟨data⟩) ∧
          prop data "users" = .arr users ∧
          (profilesRun upstream queryNb queryGameType).events
            = (axiosRetry (upstream 0) path).events
              ++ taskEvents (profileTasks upstream gameType 0 (users.take 15))) := by
  cases hpath : leaderboardPath (jsOr queryNb (.num 20)) (jsOr queryGameType (.str "bullet")) with
  | error err =>
    left
    simp only [profilesRun, hpath]
  | ok path =>
    cases hgt : toStr (jsOr queryGameType (.str "bullet")) with
    | error err =>
      cases hnb : toStr (jsOr queryNb (.num 20)) <;>
        simp [leaderboardPath, hgt, hnb, bind, Except.bind] at hpath
    | ok gameType =>
      right
      refine ⟨path, rfl, ?_⟩
      simp only [profilesRun, hpath, hgt]
      split
      · exact Or.inl rfl
      · next data hdata =>
        split
        · exact Or.inl rfl
        · split
          · next users husers =>
            exact Or.inr ⟨gameType, data, users, rfl, result_of_responseData hdata, husers, rfl⟩
          · exact Or.inl rfl

/-- C19: one `/api/profiles` request makes at most 48 upstream attempts.  Its event
log is empty, or that of the leaderboard fetch alone, or that of the leaderboard
fetch followed by the logs of the callbacks of the first 15 users of the fetched
body; the leaderboard fetch makes at most 3 attempts, there are at most 15
callbacks, and each makes at most 3 attempts.  When every attempt of the
leaderboard fetch fails, exactly 3 attempts are made, all of them on the
leaderboard path, so no per-player fetch is issued. -/
theorem profiles_attempt_budget (upstream : Nat → ApiClient) (queryNb queryGameType : JVal) :
    attempts (profilesRun upstream queryNb queryGameType).events ≤ 48 ∧
    ((profilesRun upstream queryNb queryGameType).events = [] ∨
      ∃ path, leaderboardPath (jsOr queryNb (.num 20)) (jsOr queryGameType (.str "bullet"))
          = .ok path ∧
        ((profilesRun upstream queryNb queryGameType).events
            = (axiosRetry (upstream 0) path).events ∨
          ∃ gameType data users,
            toStr (jsOr queryGameType (.str "bullet")) = .ok gameType ∧
            (axiosRetry (upstream 0) path).result = .ok (some ⟨data⟩) ∧
            prop data "users" = .arr users ∧
            (profilesRun upstream queryNb queryGameType).events
              = (axiosRetry (upstream 0) path).events
                ++ taskEvents (profileTasks upstream gameType 0 (users.take 15)))) ∧
    (∀ path, attempts (axiosRetry (upstream 0) path).events ≤ 3) ∧
    (∀ gameType users,
      (profileTasks upstream gameType 0 (List.take 15 users)).length ≤ 15 ∧
      ∀ task ∈ profileTasks upstream gameType 0 (List.take 15 users),
        attempts task.events ≤ 3) ∧
    (∀ path, leaderboardPath (jsOr queryNb (.num 20)) (jsOr queryGameType (.str "bullet"))
        = .ok path →
      (∀ i, ∃ e, upstream 0 path i = .error e) →
      attempts (profilesRun upstream queryNb queryGameType).events = 3 ∧
      requestedUrls (profilesRun upstream queryNb queryGameType).events
        = [path, path, path]) := by
  have hcases := profilesRun_events_cases upstream queryNb queryGameType
  have htasks : ∀ gameType users,
      (profileTasks upstream gameType 0 (List.take 15 users)).length ≤ 15 ∧
      ∀ task ∈ profileTasks upstream gameType 0 (List.take 15 users),
        attempts task.events ≤ 3 := by
    intro gameType users
    refine ⟨?_, profileTasks_attempts_le _ _ _ _⟩
    rw [profileTasks_length, List.length_take]
    omega
  refine ⟨?_, hcases, fun path => axiosRetry_attempts_le _ _, htasks, ?_⟩
  · rcases hcases with hnone | ⟨path, _, hcall | ⟨gameType, data, users, _, _, _, hboth⟩⟩
    · rw [hnone]
      simp [attempts]
    · rw [hcall]
      have := axiosRetry_attempts_le (upstream 0) path
      omega
    · rw [hboth, attempts_append]
      have hcall := axiosRetry_attempts_le (upstream 0) path
      have hsum := taskEvents_attempts_le _ (htasks gameType users).2
      have hlen := (htasks gameType users).1
      omega
  · intro path hpath hfail
    obtain ⟨e0, h0⟩ := hfail 0
    obtain ⟨e1, h1⟩ := hfail 1
    obtain ⟨e2, h2⟩ := hfail 2
    have hrun : axiosRetry (upstream 0) path
        = ⟨.error e2, [.get path, .sleep 1000, .get path, .sleep 1000, .get path]⟩ := by
      rw [axiosRetry_unfold]
      simp only [h0, h1, h2]
    have hevents : (profilesRun upstream queryNb queryGameType).events
        = [.get path, .sleep 1000, .get path, .sleep 1000, .get path] := by
      unfold profilesRun
      cases hgt : toStr (jsOr queryGameType (.str "bullet")) with
      | error err =>
        cases hnb : toStr (jsOr queryNb (.num 20)) <;>
          simp [leaderboardPath, hgt, hnb, bind, Except.bind] at hpath
      | ok gameType =>
        simp only [hpath, hgt]
        simp [hrun, bind, Except.bind]
    rw [hevents]
    exact ⟨rfl, rfl⟩

theorem profiles_attempt_budget_witness :
    (attempts (profilesRun (fun _ => alwaysTimeout) .undefined .undefined).events = 3 ∧
      requestedUrls (profilesRun (fun _ => alwaysTimeout) .undefined .undefined).events
        = ["/player/top/20/bullet", "/player/top/20/bullet", "/player/top/20/bullet"]) ∧
    attempts (profilesRun worstUpstream .undefined .undefined).events ≤ 48 ∧
    attempts (profilesRun worstUpstream .undefined .undefined).events = 48 :=
  ⟨(profiles_attempt_budget (fun _ => alwaysTimeout) .undefined .undefined).2.2.2.2
      "/player/top/20/bullet" rfl (fun _ => ⟨_, rfl⟩),
    (profiles_attempt_budget worstUpstream .undefined .undefined).1, rfl⟩

/-! ## Rating colours: properties -/

theorem getRatingColor_eq_bandColour (r : Int) :
    Leaderboards.getRatingColor (some r) = bandColour (ratingBand r) := by
  unfold Leaderboards.getRatingColor ratingBand
  simp only [ratingFalsy, ratingLt, Bool.or_eq_true, beq_iff_eq, decide_eq_true_eq]
  split_ifs <;> first | rfl | omega

/-- C18: `getRatingColor` maps every rating to one of seven colours fixed by the
thresholds 1200, 1400, 1600, 1800, 2000, 2200: an absent, zero or below-1200 rating
gives `#666`, then `#996633`, `#669900`, `#0099cc`, `#9966cc`, `#ff9900` band by
band, and `#ff6600` from 2200 on; two ratings in the same band get the same colour;
and the copies in `Profile.jsx` and `Leaderboards.jsx` agree on every input. -/
theorem getRatingColor_bands :
    (∀ rating, Profile.getRatingColor rating = Leaderboards.getRatingColor rating) ∧
    Leaderboards.getRatingColor none = "#666" ∧
    Leaderboards.getRatingColor (some 0) = "#666" ∧
    (∀ r : Int, Leaderboards.getRatingColor (some r) = bandColour (ratingBand r)) ∧
    (∀ r : Int, r < 1200 → Leaderboards.getRatingColor (some r) = "#666") ∧
    (∀ r : Int, 1200 ≤ r → r < 1400 → Leaderboards.getRatingColor (some r) = "#996633") ∧
    (∀ r : Int, 1400 ≤ r → r < 1600 → Leaderboards.getRatingColor (some r) = "#669900") ∧
    (∀ r : Int, 1600 ≤ r → r < 1800 → Leaderboards.getRatingColor (some r) = "#0099cc") ∧
    (∀ r : Int, 1800 ≤ r → r < 2000 → Leaderboards.getRatingColor (some r) = "#9966cc") ∧
    (∀ r : Int, 2000 ≤ r → r < 2200 → Leaderboards.getRatingColor (some r) = "#ff9900") ∧
    (∀ r : Int, 2200 ≤ r → Leaderboards.getRatingColor (some r) = "#ff6600") ∧
    (∀ r s : Int, ratingBand r = ratingBand s →
      Leaderboards.getRatingColor (some r) = Leaderboards.getRatingColor (some s)) := by
  have hband : ∀ (r : Int) (b : Nat), ratingBand r = b →
      Leaderboards.getRatingColor (some r) = bandColour b := by
    intro r b hb
    rw [getRatingColor_eq_bandColour, hb]
  refine ⟨fun _ => rfl, rfl, rfl, getRatingColor_eq_bandColour, ?_, ?_, ?_, ?_, ?_, ?_, ?_, ?_⟩
  · intro r h
    exact hband r 0 (by unfold ratingBand; split_ifs; rfl)
  · intro r h1 h2
    exact hband r 1 (by unfold ratingBand; split_ifs <;> first | rfl | omega)
  · intro r h1 h2
    exact hband r 2 (by unfold ratingBand; split_ifs <;> first | rfl | omega)
  · intro r h1 h2
    exact hband r 3 (by unfold ratingBand; split_ifs <;> first | rfl | omega)
  · intro r h1 h2
    exact hband r 4 (by unfold ratingBand; split_ifs <;> first | rfl | omega)
  · intro r h1 h2
    exact hband r 5 (by unfold ratingBand; split_ifs <;> first | rfl | omega)
  · intro r h
    exact hband r 6 (by unfold ratingBand; split_ifs <;> first | rfl | omega)
  · intro r s h
    rw [getRatingColor_eq_bandColour, getRatingColor_eq_bandColour, h]

theorem getRatingColor_bands_witness :
    Leaderboards.getRatingColor (some 1399) = "#996633" ∧
      Leaderboards.getRatingColor (some 1400) = "#669900" ∧
      Leaderboards.getRatingColor (some 3100) = "#ff6600" ∧
      Leaderboards.getRatingColor (some 1250) = Leaderboards.getRatingColor (some 1399) :=
  ⟨getRatingColor_bands.2.2.2.2.2.1 1399 (by decide) (by decide),
    getRatingColor_bands.2.2.2.2.2.2.1 1400 (by decide) (by decide),
    getRatingColor_bands.2.2.2.2.2.2.2.2.2.2.1 3100 (by decide),
    getRatingColor_bands.2.2.2.2.2.2.2.2.2.2.2 1250 1399 (by decide)⟩


/-! ## Lookups of `/api/profiles`: properties -/

/-- One per-player callback requests only the url of its own record. -/
theorem profileTask_requestedUrls (get : ApiClient) (gameType : String) (user : JVal) :
    ∀ url ∈ requestedUrls (profileTask get gameType user).events,
      ∃ name, usernameText user = .ok name ∧ url = "/user/" ++ name := by
  intro url hurl
  simp only [profileTask] at hurl
  split at hurl
  · simp [requestedUrls] at hurl
  · next name hname =>
    refine ⟨name, hname, ?_⟩
    split at hurl <;> exact (axiosRetry_requestedUrls get _).2 url hurl

/-- The callbacks of a list of records request only urls of those records. -/
theorem profileTasks_requestedUrls (upstream : Nat → ApiClient) (gameType : String)
    (users : List JVal) :
    ∀ index, ∀ url ∈ requestedUrls (taskEvents (profileTasks upstream gameType index users)),
      ∃ user ∈ users, ∃ name, usernameText user = .ok name ∧ url = "/user/" ++ name := by
  induction users with
  | nil => intro index url hurl; simp [profileTasks, taskEvents, requestedUrls] at hurl
  | cons u rest ih =>
    intro index url hurl
    simp only [profileTasks, taskEvents, requestedUrls_append, List.mem_append] at hurl
    rcases hurl with h | h
    · obtain ⟨name, hname, hurl⟩ := profileTask_requestedUrls _ _ _ url h
      exact ⟨u, List.mem_cons_self _ _, name, hname, hurl⟩
    · obtain ⟨user, huser, name, hname, hurl⟩ := ih _ url h
      exact ⟨user, List.mem_cons_of_mem _ huser, name, hname, hurl⟩

/-- The upstream events of `/api/profiles` once the leaderboard fetch returned a body
with an array `users`: those of the leaderboard fetch, then those of the callbacks
of the first 15 users. -/
theorem profilesRun_events_of_users {upstream : Nat → ApiClient} {queryNb queryGameType : JVal}
    {nbText gameType : String} {data : JVal} {users : List JVal}
    (hnb : toStr (jsOr queryNb (.num 20)) = .ok nbText)
    (hgt : toStr (jsOr queryGameType (.str "bullet")) = .ok gameType)
    (hcall : (axiosRetry (upstream 0) ("/player/top/" ++ nbText ++ "/" ++ gameType)).result
      = .ok (some ⟨data⟩))
    (husers : prop data "users" = .arr users) :
    (profilesRun upstream queryNb queryGameType).events
      = (axiosRetry (upstream 0) ("/player/top/" ++ nbText ++ "/" ++ gameType)).events
        ++ taskEvents (profileTasks upstream gameType 0 (users.take 15)) := by
  have hdata : truthy data = true := by
    cases data <;> first | rfl | simp [prop] at husers
  have harr : truthy (.arr users) = true := rfl
  simp [profilesRun, leaderboardPath, hnb, hgt, hcall, bind, Except.bind,
    pure, Except.pure, responseData, husers, hdata, harr]

/-- C3: when the leaderboard fetch returns a users list of `n` user records, the
`/api/profiles` handler answers 200 with exactly `min n 15` entries, whatever the
per-player fetches do: a failed profile fetch drops no entry.  Whatever `nb` was
requested, the handler's upstream events are those of the leaderboard fetch
followed by those of `min n 15` callbacks, one per record among the first 15, and
every url these request is the profile url of one of the first 15 records: no
more than 15 players are looked up. -/
theorem profiles_entry_count (upstream : Nat → ApiClient) (queryNb queryGameType : JVal)
    (gameType : String) (data : JVal) (users : List JVal)
    (hfetch : LeaderboardFetched upstream queryNb queryGameType gameType data)
    (husers : prop data "users" = .arr users)
    (hrecords : ∀ u ∈ users, printsUsername u = true) :
    (∃ entries, profilesHandler upstream queryNb queryGameType = ⟨200, .arr entries⟩ ∧
      entries.length = min users.length 15) ∧
    (∃ nbText, toStr (jsOr queryNb (.num 20)) = .ok nbText ∧
      (profilesRun upstream queryNb queryGameType).events
        = (axiosRetry (upstream 0) ("/player/top/" ++ nbText ++ "/" ++ gameType)).events
          ++ taskEvents (profileTasks upstream gameType 0 (users.take 15))) ∧
    (profileTasks upstream gameType 0 (users.take 15)).length = min users.length 15 ∧
    (∀ url ∈ requestedUrls (taskEvents (profileTasks upstream gameType 0 (users.take 15))),
      ∃ user ∈ users.take 15, ∃ name, usernameText user = .ok name ∧ url = "/user/" ++ name) := by
  obtain ⟨entries, hresp, hlen, _⟩ := profiles_entries hfetch husers hrecords
  obtain ⟨nbText, hnb, hgt, hcall⟩ := hfetch
  refine ⟨⟨entries, hresp, hlen⟩, ⟨nbText, hnb, profilesRun_events_of_users hnb hgt hcall husers⟩,
    ?_, profileTasks_requestedUrls _ _ _ _⟩
  rw [profileTasks_length, List.length_take, Nat.min_comm]

theorem profiles_entry_count_witness :
    (∃ entries, profilesHandler sampleUpstream (.str "50") .undefined = ⟨200, .arr entries⟩ ∧
      entries.length = min sampleUsers.length 15) ∧
    (∃ entries, profilesHandler crowdedUpstream (.str "50") .undefined = ⟨200, .arr entries⟩ ∧
      entries.length = min crowdedUsers.length 15) ∧
    (∃ nbText, toStr (jsOr (.str "50") (.num 20)) = .ok nbText ∧
      (profilesRun crowdedUpstream (.str "50") .undefined).events
        = (axiosRetry (crowdedUpstream 0) ("/player/top/" ++ nbText ++ "/" ++ "bullet")).events
          ++ taskEvents (profileTasks crowdedUpstream "bullet" 0 (crowdedUsers.take 15))) ∧
    (profileTasks crowdedUpstream "bullet" 0 (crowdedUsers.take 15)).length
      = min crowdedUsers.length 15 ∧
    (∀ url ∈ requestedUrls
        (taskEvents (profileTasks crowdedUpstream "bullet" 0 (crowdedUsers.take 15))),
      ∃ user ∈ crowdedUsers.take 15, ∃ name,
        usernameText user = .ok name ∧ url = "/user/" ++ name) ∧
    min crowdedUsers.length 15 = 15 ∧
    "/user/p16" ∉ requestedUrls (profilesRun crowdedUpstream (.str "50") .undefined).events :=
  ⟨(profiles_entry_count sampleUpstream (.str "50") .undefined "bullet"
      (.obj [("users", .arr sampleUsers)]) sampleUsers ⟨"50", rfl, rfl, rfl⟩ rfl (by decide)).1,
    (profiles_entry_count crowdedUpstream (.str "50") .undefined "bullet"
      (.obj [("users", .arr crowdedUsers)]) crowdedUsers ⟨"50", rfl, rfl, rfl⟩ rfl
      (by decide)).1,
    (profiles_entry_count crowdedUpstream (.str "50") .undefined "bullet"
      (.obj [("users", .arr crowdedUsers)]) crowdedUsers ⟨"50", rfl, rfl, rfl⟩ rfl
      (by decide)).2.1,
    (profiles_entry_count crowdedUpstream (.str "50") .undefined "bullet"
      (.obj [("users", .arr crowdedUsers)]) crowdedUsers ⟨"50", rfl, rfl, rfl⟩ rfl
      (by decide)).2.2.1,
    (profiles_entry_count crowdedUpstream (.str "50") .undefined "bullet"
      (.obj [("users", .arr crowdedUsers)]) crowdedUsers ⟨"50", rfl, rfl, rfl⟩ rfl
      (by decide)).2.2.2,
    by decide, by decide⟩


end Lichess
